import Mathlib

/-!
# phantomsocks: flow observer, fake-packet injector, DNS relay, listener and exit path

Shallow embedding of `phantomtcp/raw.go` (`connectionMonitor`, `SendFakePacket`)
and of `phantomsocks.go` (`ListenAndServe`, `DNSServer`, `main`).

Machine integers are natural numbers; wrap-around is written with an explicit
modulus wherever the Go code can overflow.  Bytes are natural numbers below 256.
-/

namespace PhantomSocks

/-! ## Data model (`phantomtcp/raw.go`, gopacket `layers`) -/

/-- The gopacket `layers.TCPOption` record: kind, length field, option data. -/
structure TCPOption where
  OptionType : Nat
  OptionLength : Nat
  OptionData : List Nat
deriving DecidableEq, Repr

/-- The gopacket `layers.TCP` header record (the fields that are decoded,
copied or serialized). -/
structure TCP where
  SrcPort : Nat
  DstPort : Nat
  Seq : Nat
  Ack : Nat
  DataOffset : Nat
  FIN : Bool
  SYN : Bool
  RST : Bool
  PSH : Bool
  ACK : Bool
  URG : Bool
  ECE : Bool
  CWR : Bool
  NS : Bool
  Window : Nat
  Checksum : Nat
  Urgent : Nat
  Options : List TCPOption
  Padding : List Nat
deriving DecidableEq, Repr

/-- The gopacket `layers.IPv4` header record.  `Options` and `Padding` are `nil`
in every template built by this file (raw.go:109-110) and are not carried. -/
structure IPv4 where
  Version : Nat
  IHL : Nat
  TOS : Nat
  Length : Nat
  Id : Nat
  Flags : Nat
  FragOffset : Nat
  TTL : Nat
  Protocol : Nat
  Checksum : Nat
  SrcIP : List Nat
  DstIP : List Nat
deriving DecidableEq, Repr

/-- The gopacket `layers.IPv6` header record.  `HopByHop` is `nil` (`none`) in
every template built by this file (raw.go:85); the serializer attaches a
hop-by-hop header to the record when it serializes an oversized packet.  Such a
header is given by its `NextHeader`; its only option is the jumbo-length
option, stored with a zero length. -/
structure IPv6 where
  Version : Nat
  TrafficClass : Nat
  FlowLabel : Nat
  Length : Nat
  NextHeader : Nat
  HopLimit : Nat
  SrcIP : List Nat
  DstIP : List Nat
  HopByHop : Option Nat
deriving DecidableEq, Repr

/-- The `gopacket.NetworkLayer` interface value held in a `ConnectionInfo`: the
two cases of the type switch in `SendFakePacket`, a non-nil layer of any other
type (`other`), and the nil interface (`absent`). -/
inductive NetworkLayer where
  | v4 (ip : IPv4)
  | v6 (ip : IPv6)
  | other
  | absent
deriving DecidableEq, Repr

/-- The record `ConnectionInfo` of raw.go:19-23.  `Link` is always `nil`. -/
structure ConnectionInfo where
  IP : NetworkLayer
  TCP : TCP
deriving DecidableEq, Repr

/-- The shared globals of raw.go:26-28: the interest map `ConnSyn`
(`map[string]int`) and the two port-indexed tables. -/
structure MonitorState where
  ConnSyn : String → Option Int
  ConnInfo4 : Nat → Option ConnectionInfo
  ConnInfo6 : Nat → Option ConnectionInfo

/-- One iteration's input of the capture loop: `handle.ReadFrom` either fails,
or yields a packet, given here by the header `tcp.DecodeFromBytes` produced and
by the text `addr.String()` of the remote address. -/
inductive Capture where
  | readErr
  | packet (tcp : TCP) (addr : String)

/-- Array store `table[port] = &rec`. -/
def tableSet (table : Nat → Option ConnectionInfo) (port : Nat) (rec : ConnectionInfo) :
    Nat → Option ConnectionInfo :=
  fun i => if i = port then some rec else table i

/-- The IPv6 template of raw.go:76-85. -/
def ipv6Template (localIP : List Nat) (remoteIP : List Nat) : IPv6 :=
  { Version := 6, TrafficClass := 5, FlowLabel := 0, Length := 0, NextHeader := 6,
    HopLimit := 64, SrcIP := localIP, DstIP := remoteIP, HopByHop := none }

/-- The IPv4 template of raw.go:96-110. -/
def ipv4Template (localIP : List Nat) (remoteIP : List Nat) : IPv4 :=
  { Version := 4, IHL := 5, TOS := 0, Length := 0, Id := 0, Flags := 0, FragOffset := 0,
    TTL := 64, Protocol := 6, Checksum := 0, SrcIP := localIP, DstIP := remoteIP }

/-- The rotation of raw.go:87-91 and 112-116: ports swapped, `ack := Seq + 1`
(32-bit), `Seq := Ack`, `Ack := ack`; every other field is kept. -/
def rotate (tcp : TCP) : TCP :=
  let srcPort := tcp.DstPort
  let tcp1 := { tcp with DstPort := tcp.SrcPort }
  let tcp2 := { tcp1 with SrcPort := srcPort }
  let ack := (tcp2.Seq + 1) % 2 ^ 32
  let tcp3 := { tcp2 with Seq := tcp2.Ack }
  { tcp3 with Ack := ack }

/-- One iteration of the loop body of `connectionMonitor` (raw.go:56-123).
`ParseIP` is `net.ParseIP`, `localIP` is `localaddr.IP`. -/
def connectionMonitorStep (ParseIP : String → List Nat) (localIP : List Nat) (ipv6 : Bool)
    (s : MonitorState) (ev : Capture) : MonitorState :=
  match ev with
  | Capture.readErr => s
  | Capture.packet tcp addr =>
    if tcp.SYN != true then s
    else
      let srcPort := tcp.DstPort
      let synAddr := addr
      match s.ConnSyn synAddr with
      | none => s
      | some _ =>
        if ipv6 then
          let ip := ipv6Template localIP (ParseIP addr)
          { s with ConnInfo4 := tableSet s.ConnInfo4 srcPort ⟨NetworkLayer.v6 ip, rotate tcp⟩ }
        else
          let ip := ipv4Template localIP (ParseIP addr)
          { s with ConnInfo4 := tableSet s.ConnInfo4 srcPort ⟨NetworkLayer.v4 ip, rotate tcp⟩ }

/-- The capture loop of `connectionMonitor` run over a finite list of reads. -/
def connectionMonitor (ParseIP : String → List Nat) (localIP : List Nat) (ipv6 : Bool)
    (s : MonitorState) (evs : List Capture) : MonitorState :=
  evs.foldl (connectionMonitorStep ParseIP localIP ipv6) s

/-! ## The injector (`SendFakePacket`, raw.go:140-222) -/

/-- The per-host policy record `Config`, as far as `SendFakePacket` reads it:
the option bit mask and the TTL byte. -/
structure Config where
  Option : Nat
  TTL : Nat
deriving DecidableEq, Repr

/-- The option-bit constants `OPT_*` read by `SendFakePacket`.  They are declared
in a file of package `phantomtcp` that is not among the sources, so their
values are parameters of the model. -/
structure OptionBits where
  OPT_TTL : Nat
  OPT_WMD5 : Nat
  OPT_NACK : Nat
  OPT_WACK : Nat
  OPT_WCSUM : Nat
deriving DecidableEq, Repr

/-- The gopacket `SerializeOptions` record. -/
structure SerializeOptions where
  FixLengths : Bool
  ComputeChecksums : Bool
deriving DecidableEq, Repr

/-- The header literal of raw.go:143-152: every field not named there has its
zero value. -/
def newTCPLayer (connInfo : ConnectionInfo) : TCP :=
  { SrcPort := connInfo.TCP.SrcPort
    DstPort := connInfo.TCP.DstPort
    Seq := connInfo.TCP.Seq
    Ack := connInfo.TCP.Ack
    DataOffset := 5
    FIN := false, SYN := false, RST := false
    PSH := true
    ACK := true
    URG := false, ECE := false, CWR := false, NS := false
    Window := connInfo.TCP.Window
    Checksum := 0
    Urgent := 0
    Options := []
    Padding := [] }

/-- The option literal of raw.go:156: kind 19, length field 18, and the byte
slice written there. -/
def md5Option : TCPOption :=
  ⟨19, 18, [0, 0, 0, 0, 0, 0, 0, 0, 0, 0, 0, 0, 0, 0, 0, 0, 0, 0]⟩

/-- The header `tcpLayer` after raw.go:143-165, before serialization. -/
def buildTCPLayer (m : OptionBits) (connInfo : ConnectionInfo) (config : Config) : TCP :=
  let tcpLayer := newTCPLayer connInfo
  let tcpLayer :=
    if config.Option &&& m.OPT_WMD5 != 0 then { tcpLayer with Options := [md5Option] }
    else tcpLayer
  if config.Option &&& m.OPT_NACK != 0 then
    { tcpLayer with ACK := false, Ack := 0 }
  else if config.Option &&& m.OPT_WACK != 0 then
    { tcpLayer with Ack := (tcpLayer.Ack + tcpLayer.Window) % 2 ^ 32 }
  else tcpLayer

/-- The serialize options of raw.go:169-174. -/
def buildSerializeOptions (m : OptionBits) (config : Config) : SerializeOptions :=
  let options : SerializeOptions := ⟨false, false⟩
  let options := { options with FixLengths := true }
  if config.Option &&& m.OPT_WCSUM == 0 then { options with ComputeChecksums := true }
  else options

/-- The in-place TTL / HopLimit write of raw.go:182-184 and 193-195. -/
def applyTTL (m : OptionBits) (config : Config) (ipLayer : NetworkLayer) : NetworkLayer :=
  match ipLayer with
  | NetworkLayer.v4 ip =>
    if config.Option &&& m.OPT_TTL != 0 then NetworkLayer.v4 { ip with TTL := config.TTL }
    else NetworkLayer.v4 ip
  | NetworkLayer.v6 ip =>
    if config.Option &&& m.OPT_TTL != 0 then NetworkLayer.v6 { ip with HopLimit := config.TTL }
    else NetworkLayer.v6 ip
  | NetworkLayer.other => NetworkLayer.other
  | NetworkLayer.absent => NetworkLayer.absent

/-! ### The gopacket serializer called by `SendFakePacket`

`gopacket.SerializeLayers` and the `SerializeTo` methods of `layers.IPv4`,
`layers.IPv6` and `layers.TCP` belong to the gopacket library.  They are
embedded here as far as the injector exercises them. -/

/-- Big-endian `PutUint16`. -/
def putUint16 (v : Nat) : List Nat := [v / 256 % 256, v % 256]

/-- Big-endian `PutUint32`. -/
def putUint32 (v : Nat) : List Nat :=
  [v / 16777216 % 256, v / 65536 % 256, v / 256 % 256, v % 256]

/-- Go `net.IP.To4`: a 4-byte address is itself, a 16-byte IPv4-mapped address
yields its last four bytes, anything else is nil. -/
def To4 (ip : List Nat) : Option (List Nat) :=
  if ip.length = 4 then some ip
  else if ip.length = 16 ∧ ip.take 10 = List.replicate 10 0 ∧ ip.drop 10 = 255 :: 255 :: ip.drop 12
  then some (ip.drop 12)
  else none

/-- The accumulation loop of gopacket `tcpipChecksum`: 16-bit big-endian words
added into a 32-bit accumulator, an odd last byte taken as a high byte. -/
def sumWords : List Nat → Nat → Nat
  | a :: b :: rest, csum => sumWords rest (((csum + a * 256) % 2 ^ 32 + b) % 2 ^ 32)
  | [a], csum => (csum + a * 256) % 2 ^ 32
  | [], csum => csum

/-- The carry loop `for csum > 0xffff { csum = (csum >> 16) + (csum & 0xffff) }`,
bounded by `fuel` rounds. -/
def foldCarry : Nat → Nat → Nat
  | 0, csum => csum
  | fuel + 1, csum =>
    if csum > 65535 then foldCarry fuel (csum / 65536 + csum % 65536) else csum

/-- The gopacket `tcpipChecksum`: sum, fold the carries, complement.  Each round
of the carry loop strictly decreases the accumulator, so `csum` rounds always
suffice (`foldCarry_le`). -/
def tcpipChecksum (data : List Nat) (csum : Nat) : Nat :=
  let csum := sumWords data csum
  65535 - foldCarry csum csum

/-- The gopacket `pseudoheaderChecksum` of the network layer set by
`SetNetworkLayerForChecksum`; `none` is its error (or no layer set). -/
def pseudoheaderChecksum (ipLayer : NetworkLayer) : Option Nat :=
  match ipLayer with
  | NetworkLayer.v4 ip =>
    match To4 ip.SrcIP, To4 ip.DstIP with
    | some s, some d =>
      some ((((s.getD 0 0 + s.getD 2 0) * 256 + (s.getD 1 0 + s.getD 3 0)
        + (d.getD 0 0 + d.getD 2 0) * 256 + (d.getD 1 0 + d.getD 3 0))) % 2 ^ 32)
    | _, _ => none
  | NetworkLayer.v6 ip =>
    if ip.SrcIP.length = 16 ∧ ip.DstIP.length = 16 then
      some ((sumWords ip.SrcIP 0 + sumWords ip.DstIP 0) % 2 ^ 32)
    else none
  | NetworkLayer.other => none
  | NetworkLayer.absent => none

/-- The gopacket `computeChecksum` with `headerProtocol = 6` (TCP): pseudo-header
sum, protocol, 32-bit length split in two halves, then the segment. -/
def computeChecksum (ipLayer : NetworkLayer) (headerAndPayload : List Nat) : Option Nat :=
  match pseudoheaderChecksum ipLayer with
  | none => none
  | some csum =>
    let length := headerAndPayload.length % 2 ^ 32
    let csum := (csum + 6) % 2 ^ 32
    let csum := (csum + length % 65536) % 2 ^ 32
    let csum := (csum + length / 65536) % 2 ^ 32
    some (tcpipChecksum headerAndPayload csum)

/-- The option-length loop at the head of gopacket `TCP.SerializeTo`. -/
def tcpOptionLength : List TCPOption → Nat
  | [] => 0
  | o :: rest =>
    (if o.OptionType = 0 ∨ o.OptionType = 1 then 1 else 2 + o.OptionData.length)
      + tcpOptionLength rest

/-- The `FixLengths` step of gopacket `TCP.SerializeTo`: padding to a multiple of
four bytes and `DataOffset = (len(Padding) + optionLength + 20) / 4` as a byte. -/
def tcpFixLengths (opts : SerializeOptions) (t : TCP) : TCP :=
  if opts.FixLengths then
    let optionLength := tcpOptionLength t.Options
    let t := if optionLength % 4 ≠ 0 then
        { t with Padding := List.replicate (4 - optionLength % 4) 0 } else t
    { t with DataOffset := (t.Padding.length + optionLength + 20) / 4 % 256 }
  else t

/-- The gopacket `flagsAndOffset`: data offset in the top four bits, then the
nine flag bits. -/
def flagsAndOffset (t : TCP) : Nat :=
  (t.DataOffset * 4096 % 65536)
    ||| (if t.FIN then 1 else 0) ||| (if t.SYN then 2 else 0) ||| (if t.RST then 4 else 0)
    ||| (if t.PSH then 8 else 0) ||| (if t.ACK then 16 else 0) ||| (if t.URG then 32 else 0)
    ||| (if t.ECE then 64 else 0) ||| (if t.CWR then 128 else 0) ||| (if t.NS then 256 else 0)

/-- The option bytes written by gopacket `TCP.SerializeTo`: kinds 0 and 1 are a
single byte; otherwise kind, length (rewritten to `len(OptionData) + 2` under
`FixLengths`) and data. -/
def tcpOptionBytes (opts : SerializeOptions) : List TCPOption → List Nat
  | [] => []
  | o :: rest =>
    (if o.OptionType = 0 ∨ o.OptionType = 1 then [o.OptionType % 256]
     else
      [o.OptionType % 256,
        (if opts.FixLengths then (o.OptionData.length + 2) % 256 else o.OptionLength % 256)]
        ++ o.OptionData)
      ++ tcpOptionBytes opts rest

/-- The TCP header bytes laid out by gopacket `TCP.SerializeTo`, with `csum` in
the checksum field (bytes 16 and 17). -/
def tcpHeaderBytes (opts : SerializeOptions) (t : TCP) (csum : Nat) : List Nat :=
  putUint16 t.SrcPort ++ putUint16 t.DstPort ++ putUint32 t.Seq ++ putUint32 t.Ack
    ++ putUint16 (flagsAndOffset t) ++ putUint16 t.Window ++ putUint16 csum
    ++ putUint16 t.Urgent ++ tcpOptionBytes opts t.Options ++ t.Padding

/-- The gopacket `TCP.SerializeTo`: the updated header record, the header bytes it
prepends to `payload`, and whether it returned an error.  Without
`ComputeChecksums` the field `Checksum` of the record is written as it is. -/
def tcpSerializeTo (opts : SerializeOptions) (pseudo : NetworkLayer) (t : TCP)
    (payload : List Nat) : TCP × List Nat × Bool :=
  let t := tcpFixLengths opts t
  if opts.ComputeChecksums then
    match computeChecksum pseudo (tcpHeaderBytes opts t 0 ++ payload) with
    | none => (t, tcpHeaderBytes opts t 0, true)
    | some csum => ({ t with Checksum := csum }, tcpHeaderBytes opts t csum, false)
  else (t, tcpHeaderBytes opts t t.Checksum, false)

/-- The gopacket IPv4 header `checksum`: the 16-bit words of the header with a
zero checksum field, summed, folded and complemented. -/
def ipv4Checksum (bytes : List Nat) : Nat :=
  let csum := sumWords (bytes.take 10 ++ [0, 0] ++ bytes.drop 12) 0
  65535 - foldCarry csum csum

/-- Bytes 0 to 9 of the IPv4 header as gopacket `IPv4.SerializeTo` writes them. -/
def ipv4FixedBytes (ip : IPv4) : List Nat :=
  [(ip.Version * 16 % 256 ||| ip.IHL) % 256, ip.TOS % 256] ++ putUint16 ip.Length
    ++ putUint16 ip.Id ++ putUint16 (ip.Flags * 8192 % 65536 ||| ip.FragOffset)
    ++ [ip.TTL % 256, ip.Protocol % 256]

/-- The gopacket `IPv4.SerializeTo` for a header without options, prepended to
the already serialized `rest`: updated record, the 20 header bytes, error flag.
`FixLengths` sets `IHL = 5` and `Length = len(buffer)`; the addresses are
normalised by `AddressTo4`, whose failure leaves bytes 10 to 19 unwritten. -/
def ipv4SerializeTo (opts : SerializeOptions) (ip : IPv4) (rest : List Nat) :
    IPv4 × List Nat × Bool :=
  let ip := if opts.FixLengths then
      { ip with IHL := 5, Length := (20 + rest.length) % 65536 } else ip
  match To4 ip.SrcIP, To4 ip.DstIP with
  | some src, some dst =>
    let ip := { ip with SrcIP := src, DstIP := dst }
    let unsummed := ipv4FixedBytes ip ++ [0, 0] ++ src ++ dst
    let ip := if opts.ComputeChecksums then
        { ip with Checksum := ipv4Checksum unsummed } else ip
    (ip, ipv4FixedBytes ip ++ putUint16 ip.Checksum ++ src ++ dst, false)
  | _, _ => (ip, ipv4FixedBytes ip ++ List.replicate 10 0, true)

/-- Bytes 0 to 7 of the IPv6 header as gopacket `IPv6.SerializeTo` writes them. -/
def ipv6FixedBytes (ip : IPv6) : List Nat :=
  [(ip.Version * 16 % 256 ||| ip.TrafficClass / 16) % 256,
    (ip.TrafficClass * 16 % 256 ||| ip.FlowLabel / 65536 % 256) % 256]
    ++ putUint16 ip.FlowLabel ++ putUint16 ip.Length
    ++ [ip.NextHeader % 256, ip.HopLimit % 256]

/-- The 8 bytes of the hop-by-hop header the serializer writes for a record
that has one: next header, header length 0, and the jumbo-length option (type
0xC2, length 4) with its 32-bit length. -/
def hopByHopBytes (nextHeader jumboLength : Nat) : List Nat :=
  [nextHeader % 256, 0, 194, 4] ++ putUint32 jumboLength

/-- The 40 header bytes and the error flag of the last step of gopacket
`IPv6.SerializeTo`; `AddressTo16` fails on an address that is not 16 bytes
long, leaving bytes 8 to 39 unwritten. -/
def ipv6HeaderBytes (ip : IPv6) : List Nat × Bool :=
  if ip.SrcIP.length = 16 ∧ ip.DstIP.length = 16 then
    (ipv6FixedBytes ip ++ ip.SrcIP ++ ip.DstIP, false)
  else (ipv6FixedBytes ip ++ List.replicate 32 0, true)

/-- The gopacket `IPv6.SerializeTo`, prepended to the already serialized
`rest`: updated record, the bytes it prepends, error flag.

A payload above 65535 bytes is a jumbogram: without `FixLengths` it is an
error; with `FixLengths` a record without hop-by-hop header gets one that takes
over the record's `NextHeader` (`addIPv6JumboOption`).  A record with a
hop-by-hop header has `NextHeader` forced to 0 and the 8 header bytes written
in front of `rest`, with the length of all that follows the IPv6 header in a
jumbogram and 0 otherwise; a non-jumbogram that grows beyond 65535 bytes this
way is an error.  `FixLengths` sets `Length` to 0 in a jumbogram and to the
payload length otherwise. -/
def ipv6SerializeTo (opts : SerializeOptions) (ip : IPv6) (rest : List Nat) :
    IPv6 × List Nat × Bool :=
  if 65535 < rest.length then
    if opts.FixLengths then
      let nh := ip.HopByHop.getD ip.NextHeader
      let ip := { ip with HopByHop := some nh, NextHeader := 0, Length := 0 }
      let hbh := hopByHopBytes nh ((8 + rest.length) % 2 ^ 32)
      (ip, (ipv6HeaderBytes ip).1 ++ hbh, (ipv6HeaderBytes ip).2)
    else (ip, [], true)
  else
    match ip.HopByHop with
    | some nh =>
      let ip := { ip with NextHeader := 0 }
      let hbh := hopByHopBytes nh 0
      if 65535 < 8 + rest.length then (ip, hbh, true)
      else
        let ip := if opts.FixLengths then
            { ip with Length := (8 + rest.length) % 65536 } else ip
        (ip, (ipv6HeaderBytes ip).1 ++ hbh, (ipv6HeaderBytes ip).2)
    | none =>
      let ip := if opts.FixLengths then { ip with Length := rest.length % 65536 } else ip
      (ip, (ipv6HeaderBytes ip).1, (ipv6HeaderBytes ip).2)

/-- What `gopacket.SerializeLayers(buffer, options, ip, tcpLayer, payload)` leaves
behind: the layer records after their in-place updates and the buffer bytes.
Layers are serialized last to first and the first error stops the run. -/
structure Serialized where
  ip : NetworkLayer
  tcp : TCP
  bytes : List Nat
  err : Bool
deriving DecidableEq, Repr

/-- The call `gopacket.SerializeLayers(buffer, options, ip, tcpLayer,
gopacket.Payload(payload))` for an IPv4 network layer; `tcpLayer` had
`SetNetworkLayerForChecksum(ip)` applied. -/
def SerializeLayers4 (opts : SerializeOptions) (ip : IPv4) (tcpLayer : TCP)
    (payload : List Nat) : Serialized :=
  match tcpSerializeTo opts (NetworkLayer.v4 ip) tcpLayer payload with
  | (t, hdr, true) => ⟨NetworkLayer.v4 ip, t, hdr ++ payload, true⟩
  | (t, hdr, false) =>
    match ipv4SerializeTo opts ip (hdr ++ payload) with
    | (ip1, iphdr, e) => ⟨NetworkLayer.v4 ip1, t, iphdr ++ (hdr ++ payload), e⟩

/-- The same call for an IPv6 network layer. -/
def SerializeLayers6 (opts : SerializeOptions) (ip : IPv6) (tcpLayer : TCP)
    (payload : List Nat) : Serialized :=
  match tcpSerializeTo opts (NetworkLayer.v6 ip) tcpLayer payload with
  | (t, hdr, true) => ⟨NetworkLayer.v6 ip, t, hdr ++ payload, true⟩
  | (t, hdr, false) =>
    match ipv6SerializeTo opts ip (hdr ++ payload) with
    | (ip1, iphdr, e) => ⟨NetworkLayer.v6 ip1, t, iphdr ++ (hdr ++ payload), e⟩

/-- The raw-socket environment of one `SendFakePacket` call: whether
`syscall.Socket` fails and whether the `i`-th `syscall.Sendto` fails. -/
structure RawSocketEnv where
  socketErr : Bool
  sendtoErr : Nat → Bool

/-- The send loop of raw.go:212-218, from index `i` with `n` rounds left: the
number of packets handed to `Sendto` successfully and whether an error ended it. -/
def sendLoop (sendtoErr : Nat → Bool) (i : Nat) : Nat → Nat × Bool
  | 0 => (i, false)
  | n + 1 => if sendtoErr i then (i, true) else sendLoop sendtoErr (i + 1) n

/-- The observable result of one `SendFakePacket` call. -/
structure SendOutcome where
  /-- The `ConnectionInfo` after the call (its network layer is updated in place). -/
  connInfo : ConnectionInfo
  /-- The header record `tcpLayer` after serialization. -/
  tcpLayer : TCP
  /-- The serialize options passed to the serializer. -/
  options : SerializeOptions
  /-- The bytes `buffer.Bytes()` handed to `Sendto`. -/
  outgoingPacket : List Nat
  /-- Number of successful `Sendto` calls. -/
  sent : Nat
  /-- Whether the call returned a non-nil error. -/
  err : Bool

/-- The tail of `SendFakePacket` (raw.go:205-221): open the raw socket, send
`count` copies, close. -/
def sendAll (env : RawSocketEnv) (connInfo : ConnectionInfo) (tcpLayer : TCP)
    (options : SerializeOptions) (outgoingPacket : List Nat) (count : Int) : SendOutcome :=
  if env.socketErr then ⟨connInfo, tcpLayer, options, outgoingPacket, 0, true⟩
  else
    match sendLoop env.sendtoErr 0 count.toNat with
    | (n, e) => ⟨connInfo, tcpLayer, options, outgoingPacket, n, e⟩

/-- The function `SendFakePacket` (raw.go:140-222).  The result is `none` when
the Go code panics: on a nil network layer in `SetNetworkLayerForChecksum`
(raw.go:176), or on the slice expressions `ip.DstIP.To4()[:4]` (raw.go:189) and
`ip.DstIP[:16]` (raw.go:200).  For a non-nil layer that is neither IPv4 nor
IPv6 nothing is serialized and `syscall.Socket` is called with domain 0, which
fails: the call returns that error without sending. -/
def SendFakePacket (m : OptionBits) (env : RawSocketEnv) (connInfo : ConnectionInfo)
    (payload : List Nat) (config : Config) (count : Int) : Option SendOutcome :=
  let tcpLayer := buildTCPLayer m connInfo config
  let options := buildSerializeOptions m config
  match applyTTL m config connInfo.IP with
  | NetworkLayer.v4 ip =>
    let r := SerializeLayers4 options ip tcpLayer payload
    match r.ip with
    | NetworkLayer.v4 ip1 =>
      match To4 ip1.DstIP with
      | none => none
      | some _ =>
        some (sendAll env { connInfo with IP := r.ip } r.tcp options r.bytes count)
    | _ => none
  | NetworkLayer.v6 ip =>
    let r := SerializeLayers6 options ip tcpLayer payload
    match r.ip with
    | NetworkLayer.v6 ip1 =>
      if ip1.DstIP.length < 16 then none
      else some (sendAll env { connInfo with IP := r.ip } r.tcp options r.bytes count)
    | _ => none
  | NetworkLayer.other => some ⟨connInfo, tcpLayer, options, [], 0, true⟩
  | NetworkLayer.absent => none

/-- The TCP segment (header and payload) inside a serialized packet, located
by the record the packet was serialized from: what follows the 20-byte IPv4
header, or the 40-byte IPv6 header and, if the record has one, the 8-byte
hop-by-hop header. -/
def tcpSegmentOf (ipLayer : NetworkLayer) (packet : List Nat) : List Nat :=
  match ipLayer with
  | NetworkLayer.v4 _ => packet.drop 20
  | NetworkLayer.v6 ip => if ip.HopByHop.isSome then packet.drop 48 else packet.drop 40
  | NetworkLayer.other => packet
  | NetworkLayer.absent => packet

/-- The checksum field of a TCP segment: bytes 16 and 17, big-endian. -/
def checksumField (segment : List Nat) : Nat :=
  segment.getD 16 0 * 256 + segment.getD 17 0

/-- The correct TCP checksum of a serialized segment: the one's-complement
checksum over pseudo-header, TCP header with a zero checksum field, and payload
(what the serializer stores when `ComputeChecksums` is on). -/
def correctTCPChecksum (ipLayer : NetworkLayer) (segment : List Nat) : Option Nat :=
  computeChecksum ipLayer (segment.take 16 ++ [0, 0] ++ segment.drop 18)

/-- The IPv4 TTL byte of a serialized packet (byte 8). -/
def ttlByte (packet : List Nat) : Option Nat := packet.get? 8

/-- The IPv6 hop-limit byte of a serialized packet (byte 7). -/
def hopLimitByte (packet : List Nat) : Option Nat := packet.get? 7

/-- The data-offset nibble of a serialized TCP segment: high four bits of byte 12. -/
def dataOffsetOf (segment : List Nat) : Nat := segment.getD 12 0 / 16

/-! ## The front end (`phantomsocks.go`) -/

/-- Go `strings.Split` for a one-character separator, on the characters of the
string: the pieces between separators, a single piece when there is none. -/
def splitChars (sep : Char) : List Char → List (List Char)
  | [] => [[]]
  | c :: cs =>
    if c = sep then [] :: splitChars sep cs
    else
      match splitChars sep cs with
      | [] => [[c]]
      | w :: ws => (c :: w) :: ws

/-- Go `strings.Split(s, sep)` for a one-character separator. -/
def Split (s : String) (sep : Char) : List String :=
  (splitChars sep s.toList).map String.mk

/-- Go `strings.Join` for a one-character separator, on characters. -/
def joinChars (sep : Char) : List (List Char) → List Char
  | [] => []
  | [p] => p
  | p :: q :: rest => p ++ sep :: joinChars sep (q :: rest)

/-- The list `entries` is the comma list written in `clients`: it is not empty,
no entry contains a comma, and the entries joined with commas give `clients`. -/
def isCommaList (clients : String) (entries : List String) : Bool :=
  !entries.isEmpty && entries.all (fun e => !e.toList.contains ',')
    && joinChars ',' (entries.map String.toList) == clients.toList

/-- Go `net.IP.String` for a 4-byte address: dotted decimal. -/
def ipv4String (ip : List Nat) : String :=
  ".".intercalate (ip.map toString)

/-- The global `allowlist` after phantomsocks.go:204-210: `none` is the nil map,
`some keys` a map holding exactly `keys`. -/
def buildAllowlist (clients : String) : Option (List String) :=
  if clients != "" then some (Split clients ',') else none

/-- One return of `l.Accept()`: an error, or a connection, given by an
identifier and the text `remoteTCPAddr.IP.String()` of its peer. -/
inductive Accepted where
  | err
  | conn (id : Nat) (remoteIP : String)
deriving DecidableEq, Repr

/-- What `ListenAndServe` does with an accepted connection. -/
inductive ServeAction where
  | proxy (id : Nat)
  | close (id : Nat)
  | logPanic
deriving DecidableEq, Repr

/-- The accept loops of `ListenAndServe` (phantomsocks.go:25-50), once
`net.Listen` has succeeded, run over a finite list of `Accept` results;
`log.Panic` ends the loop. -/
def ListenAndServe (allowlist : Option (List String)) : List Accepted → List ServeAction
  | [] => []
  | Accepted.err :: _ => [ServeAction.logPanic]
  | Accepted.conn id remoteIP :: rest =>
    match allowlist with
    | some keys =>
      (if remoteIP ∈ keys then ServeAction.proxy id else ServeAction.close id)
        :: ListenAndServe allowlist rest
    | none => ServeAction.proxy id :: ListenAndServe allowlist rest

/-- A Go byte slice: the backing array from the slice start (its length is the
capacity) and the slice length. -/
structure GoSlice where
  backing : List Nat
  len : Nat
deriving DecidableEq, Repr

/-- The bytes of a Go slice. -/
def GoSlice.bytes (s : GoSlice) : List Nat := s.backing.take s.len

/-- The slice expression `s[:n]`: the first `n` bytes of the backing array, a
run-time panic (`none`) when `n` exceeds the capacity. -/
def GoSlice.sliceTo (s : GoSlice) (n : Nat) : Option (List Nat) :=
  if n ≤ s.backing.length then some (s.backing.take n) else none

/-- The collaborators of one `DNSServer` iteration: the policy answer
(`ConfigLookup` hit followed by `BuildLie`), the datagram read from the UDP
upstream (`none` on a dial, write or read error) and `TLSlookup`. -/
structure DNSEnv where
  lie : List Nat → Option (List Nat)
  udpUpstream : List Nat → Option (List Nat)
  TLSlookup : List Nat → Option GoSlice

/-- What one `DNSServer` iteration does towards the client. -/
inductive DNSAction where
  | writeToUDP (bytes : List Nat)
  | nothing
  | panic
deriving DecidableEq, Repr

/-- One iteration of the `DNSServer` loop (phantomsocks.go:95-155) for a received
datagram: `n` is the count returned by `ReadFromUDP` into the 512-byte buffer. -/
def DNSServerStep (env : DNSEnv) (defaultDNS : String) (datagram : List Nat) : DNSAction :=
  let n := min datagram.length 512
  let query := datagram.take n
  match env.lie query with
  | some response => DNSAction.writeToUDP response
  | none =>
    if defaultDNS != "" then
      match env.udpUpstream query with
      | none => DNSAction.nothing
      | some reply => DNSAction.writeToUDP (reply.take 1480)
    else
      match env.TLSlookup query with
      | none => DNSAction.nothing
      | some recv =>
        match recv.sliceTo n with
        | none => DNSAction.panic
        | some bytes => DNSAction.writeToUDP bytes

/-- The command-line flags of phantomsocks.go:158-170. -/
structure Flags where
  configFiles : String
  hostsFile : String
  socksListenAddr : String
  httpListenAddr : String
  pacListenAddr : String
  sniListenAddr : String
  redirectAddr : String
  systemProxy : String
  dnsListenAddr : String
  device : String
  logLevel : Int
  synack : Bool
  clients : String
deriving DecidableEq, Repr

/-- The collaborators of `main`: whether `LoadConfig` / `LoadHosts` fail on a
file, the error text `SetProxy` returns (if any), and the signal delivered. -/
structure MainEnv where
  loadConfigErr : String → Bool
  loadHostsErr : String → Bool
  setProxyErr : String → String → Bool → Option String
  signal : String

/-- The observable steps of `main`. -/
inductive Event where
  | DevicePrint
  | Init
  | LoadConfig (filename : String)
  | LoadHosts (filename : String)
  | logErr
  | ConnectionMonitor (devices : List String) (synack : Bool)
  | Println (tag : String) (text : String)
  | goListenAndServe (listenAddr : String) (handler : String)
  | goPACServer (listenAddr : String) (proxyAddr : String)
  | SetProxy (dev : String) (proxy : String) (enable : Bool)
  | goDNSServer (listenAddr : String) (defaultDNS : String)
  | signalReceived (s : String)
deriving DecidableEq, Repr

/-- The loop of phantomsocks.go:185-193 over the configuration files: the trace
and whether `main` returns. -/
def loadConfigs (env : MainEnv) (logLevel : Int) : List String → List Event × Bool
  | [] => ([], false)
  | filename :: rest =>
    if env.loadConfigErr filename then
      (Event.LoadConfig filename :: (if logLevel > 0 then [Event.logErr] else []), true)
    else
      match loadConfigs env logLevel rest with
      | (tr, stop) => (Event.LoadConfig filename :: tr, stop)

/-- The loops of phantomsocks.go:239-244 and 263-268: `SetProxy` on every device,
printing a returned error. -/
def setProxyAll (env : MainEnv) (proxy : String) (enable : Bool) : List String → List Event
  | [] => []
  | dev :: rest =>
    (Event.SetProxy dev proxy enable ::
      (match env.setProxyErr dev proxy enable with
       | some e => [Event.Println "" e]
       | none => []))
      ++ setProxyAll env proxy enable rest

/-- The listener start-up of phantomsocks.go:215-236. -/
def startListeners (f : Flags) : List Event :=
  (if f.socksListenAddr != "" then
    [Event.Println "Socks:" f.socksListenAddr,
      Event.goListenAndServe f.socksListenAddr "SocksProxy"]
      ++ (if f.pacListenAddr != "" then
        [Event.goPACServer f.pacListenAddr f.socksListenAddr] else [])
   else [])
  ++ (if f.httpListenAddr != "" then
    [Event.Println "HTTP:" f.httpListenAddr,
      Event.goListenAndServe f.httpListenAddr "HTTPProxy"] else [])
  ++ (if f.sniListenAddr != "" then
    [Event.Println "SNI:" f.sniListenAddr,
      Event.goListenAndServe f.sniListenAddr "SNIProxy"] else [])
  ++ (if f.redirectAddr != "" then
    [Event.Println "Redirect:" f.redirectAddr,
      Event.goListenAndServe f.redirectAddr "Proxy"] else [])

/-- The system-proxy installation of phantomsocks.go:238-245. -/
def installProxy (env : MainEnv) (f : Flags) (devices : List String) : List Event :=
  if f.systemProxy != "" then setProxyAll env f.systemProxy true devices else []

/-- The DNS start-up of phantomsocks.go:247-255: the flag split at `#`. -/
def startDNS (f : Flags) : List Event :=
  if f.dnsListenAddr != "" then
    match Split f.dnsListenAddr '#' with
    | dnsServer :: defaultDNS :: _ => [Event.goDNSServer dnsServer defaultDNS]
    | [dnsServer] => [Event.goDNSServer dnsServer ""]
    | [] => []
  else []

/-- The exit path of phantomsocks.go:257-269: wait for the signal, print it, then
the `SetProxy(dev, proxy, false)` loop under its guard. -/
def exitPath (env : MainEnv) (f : Flags) (devices : List String) : List Event :=
  Event.signalReceived env.signal :: Event.Println "" env.signal ::
    (if f.socksListenAddr != "" then setProxyAll env f.systemProxy false devices else [])

/-- The function `main` (phantomsocks.go:172-270) as the trace of its observable
steps, for a run in which the signal arrives.  The call
`ptcp.ConnectionMonitor(devices, *synack)` is to the two-argument variant of the
monitor, which is not among the sources; it is one step of the trace and
returns. -/
def main (env : MainEnv) (f : Flags) : List Event :=
  if f.device = "" then [Event.DevicePrint]
  else
    match loadConfigs env f.logLevel (Split f.configFiles ',') with
    | (tr, true) => Event.Init :: tr
    | (tr, false) =>
      if f.hostsFile != "" ∧ env.loadHostsErr f.hostsFile then
        Event.Init :: tr ++ (Event.LoadHosts f.hostsFile ::
          (if f.logLevel > 0 then [Event.logErr] else []))
      else
        let devices := Split f.device ','
        Event.Init :: tr
          ++ (if f.hostsFile != "" then [Event.LoadHosts f.hostsFile] else [])
          ++ [Event.ConnectionMonitor devices f.synack]
          ++ startListeners f
          ++ installProxy env f devices
          ++ startDNS f
          ++ exitPath env f devices

/-- The network layer is an IPv4 or IPv6 template as the observer builds them,
with addresses usable by the serializer: an IPv4 layer has addresses `To4`
accepts; an IPv6 layer has 16-byte addresses and no hop-by-hop header. -/
def validAddrs : NetworkLayer → Bool
  | NetworkLayer.v4 ip => (To4 ip.SrcIP).isSome && (To4 ip.DstIP).isSome
  | NetworkLayer.v6 ip =>
    decide (ip.SrcIP.length = 16) && decide (ip.DstIP.length = 16) && ip.HopByHop.isNone
  | NetworkLayer.other => false
  | NetworkLayer.absent => false

/-! ## Readings of the specification used to state the claims as written -/

/-- The specification's reading of the interest set: an entry is an "ip:port"
endpoint string, and it matches a packet when it names both the packet's remote
address and its local port. -/
def specInterestMatch (ConnSyn : String → Option Int) (remote : String) (localPort : Nat) :
    Bool :=
  (ConnSyn (remote ++ ":" ++ toString localPort)).isSome

/-- Decimal value of a non-empty string of digits. -/
def parseDecimal (cs : List Char) : Option Nat :=
  if cs ≠ [] ∧ cs.all Char.isDigit then
    some (cs.foldl (fun n c => 10 * n + (c.toNat - 48)) 0)
  else none

/-- A string without its leading and trailing blanks. -/
def trimBlanks (cs : List Char) : List Char :=
  ((cs.dropWhile (· = ' ')).reverse.dropWhile (· = ' ')).reverse

/-- The specification's reading of an allowlist entry as a client IP: the IPv4
address it denotes in dotted decimal, blanks around it ignored. -/
def entryAddress (entry : String) : Option (List Nat) :=
  match (splitChars '.' (trimBlanks entry.toList)).map parseDecimal with
  | [some a, some b, some c, some d] =>
    if a < 256 ∧ b < 256 ∧ c < 256 ∧ d < 256 then some [a, b, c, d] else none
  | _ => none

/-- The specification's reading of "the client's IP address is one of the listed
client IPs": some entry of the comma list denotes the address. -/
def specListed (clients : String) (ip : List Nat) : Bool :=
  (Split clients ',').any (fun e => entryAddress e == some ip)

/-! ## Concrete inputs -/

/-- A decoded SYN/ACK header with the given ports, numbers and window. -/
def synPacket (srcPort dstPort seq ack window : Nat) : TCP :=
  { SrcPort := srcPort, DstPort := dstPort, Seq := seq, Ack := ack, DataOffset := 5,
    FIN := false, SYN := true, RST := false, PSH := false, ACK := true, URG := false,
    ECE := false, CWR := false, NS := false, Window := window, Checksum := 0, Urgent := 0,
    Options := [], Padding := [] }

/-- The bytes `net.ParseIP` returns for the two address texts used below (the
16-byte form), nil for any other text. -/
def parseSample (text : String) : List Nat :=
  if text = "192.0.2.1" then [0, 0, 0, 0, 0, 0, 0, 0, 0, 0, 255, 255, 192, 0, 2, 1]
  else if text = "2001:db8::1" then [32, 1, 13, 184, 0, 0, 0, 0, 0, 0, 0, 0, 0, 0, 0, 1]
  else []

/-- A state whose interest map holds the single key "192.0.2.1" and whose
tables are empty. -/
def oneInterest4 : MonitorState :=
  { ConnSyn := fun a => if a = "192.0.2.1" then some 1 else none
    ConnInfo4 := fun _ => none
    ConnInfo6 := fun _ => none }

/-- A state whose interest map holds the single key "2001:db8::1" and whose
tables are empty. -/
def oneInterest6 : MonitorState :=
  { ConnSyn := fun a => if a = "2001:db8::1" then some 1 else none
    ConnInfo4 := fun _ => none
    ConnInfo6 := fun _ => none }

/-- A local IPv4 address, 10.0.0.1. -/
def local4 : List Nat := [10, 0, 0, 1]

/-- A local IPv6 address, 2001:db8::2. -/
def local6 : List Nat := [32, 1, 13, 184, 0, 0, 0, 0, 0, 0, 0, 0, 0, 0, 0, 2]

/-- A sample assignment of distinct single bits to the option constants:
`OPT_TTL = 1`, `OPT_WMD5 = 4`, `OPT_NACK = 8`, `OPT_WACK = 16`, `OPT_WCSUM = 32`. -/
def sampleBits : OptionBits := ⟨1, 4, 8, 16, 32⟩

/-- A raw-socket environment in which every system call succeeds. -/
def quietEnv : RawSocketEnv := ⟨false, fun _ => false⟩

/-- The IPv4 record the observer builds for the SYN/ACK 443 → 40000 with
Seq = 1000, Ack = 2000, Window = 512 between 10.0.0.1 and 192.0.2.1. -/
def sampleConn4 : ConnectionInfo :=
  ⟨NetworkLayer.v4 (ipv4Template local4 [192, 0, 2, 1]),
    rotate (synPacket 443 40000 1000 2000 512)⟩

/-- The IPv6 record the observer builds for the same SYN/ACK between
2001:db8::2 and 2001:db8::1. -/
def sampleConn6 : ConnectionInfo :=
  ⟨NetworkLayer.v6 (ipv6Template local6 (parseSample "2001:db8::1")),
    rotate (synPacket 443 40000 1000 2000 512)⟩

/-- A 29-byte DNS query: `A example.org`, id 0x1234, recursion desired. -/
def sampleQuery : List Nat :=
  [18, 52, 1, 0, 0, 1, 0, 0, 0, 0, 0, 0,
   7, 101, 120, 97, 109, 112, 108, 101, 3, 111, 114, 103, 0, 0, 1, 0, 1]

/-- A 45-byte DNS reply to `sampleQuery`: the question and one A record. -/
def sampleReply : List Nat :=
  [18, 52, 129, 128, 0, 1, 0, 1, 0, 0, 0, 0,
   7, 101, 120, 97, 109, 112, 108, 101, 3, 111, 114, 103, 0, 0, 1, 0, 1,
   192, 12, 0, 1, 0, 1, 0, 0, 0, 60, 0, 4, 93, 184, 216, 34]

/-- A DNS environment with no policy hit in which `TLSlookup` returns `recv`. -/
def dotEnv (recv : GoSlice) : DNSEnv :=
  ⟨fun _ => none, fun _ => none, fun _ => some recv⟩

/-- An environment of `main` in which every collaborator succeeds and the
signal delivered is the interrupt. -/
def calmEnv : MainEnv := ⟨fun _ => false, fun _ => false, fun _ _ _ => none, "interrupt"⟩

/-- Flags `-device=eth0,eth1 -proxy=http://127.0.0.1:8080`, everything else at
its default. -/
def proxyOnlyFlags : Flags :=
  { configFiles := "default.conf", hostsFile := "", socksListenAddr := "",
    httpListenAddr := "", pacListenAddr := "", sniListenAddr := "", redirectAddr := "",
    systemProxy := "http://127.0.0.1:8080", dnsListenAddr := "", device := "eth0,eth1",
    logLevel := 0, synack := false, clients := "" }

/-- Flags `-device=eth0,eth1 -socks=127.0.0.1:1080`, everything else at its
default (no `-proxy`). -/
def socksOnlyFlags : Flags :=
  { configFiles := "default.conf", hostsFile := "", socksListenAddr := "127.0.0.1:1080",
    httpListenAddr := "", pacListenAddr := "", sniListenAddr := "", redirectAddr := "",
    systemProxy := "", dnsListenAddr := "", device := "eth0,eth1",
    logLevel := 0, synack := false, clients := "" }

/-! ## Theorems -/

/-! ### Flow observer -/

/-- The observer never writes the table `ConnInfo6`, whatever it captures and
whichever family it listens on. -/
theorem connectionMonitorStep_ConnInfo6 (ParseIP : String → List Nat) (localIP : List Nat)
    (ipv6 : Bool) (s : MonitorState) (ev : Capture) :
    (connectionMonitorStep ParseIP localIP ipv6 s ev).ConnInfo6 = s.ConnInfo6 := by
  cases ev with
  | readErr => rfl
  | packet tcp addr =>
    unfold connectionMonitorStep
    cases hs : tcp.SYN <;> cases hc : s.ConnSyn addr <;> cases ipv6 <;> simp [hs, hc]

/-- The observer never changes the interest map `ConnSyn`. -/
theorem connectionMonitorStep_ConnSyn (ParseIP : String → List Nat) (localIP : List Nat)
    (ipv6 : Bool) (s : MonitorState) (ev : Capture) :
    (connectionMonitorStep ParseIP localIP ipv6 s ev).ConnSyn = s.ConnSyn := by
  cases ev with
  | readErr => rfl
  | packet tcp addr =>
    unfold connectionMonitorStep
    cases hs : tcp.SYN <;> cases hc : s.ConnSyn addr <;> cases ipv6 <;> simp [hs, hc]

/-- Over any run of the capture loop, of either family, the table `ConnInfo6` is
what it was at the start. -/
theorem connectionMonitor_ConnInfo6 (ParseIP : String → List Nat) (localIP : List Nat)
    (ipv6 : Bool) (s : MonitorState) (evs : List Capture) :
    (connectionMonitor ParseIP localIP ipv6 s evs).ConnInfo6 = s.ConnInfo6 := by
  unfold connectionMonitor
  induction evs generalizing s with
  | nil => rfl
  | cons ev rest ih =>
    rw [List.foldl_cons, ih, connectionMonitorStep_ConnInfo6]

/-- C1: for a captured packet with SYN set whose remote address is a key of the
interest map, with observed fields SrcPort = r, DstPort = l, Seq = S, Ack = A,
Window = W, the record found at index l after the step has SrcPort = l,
DstPort = r, Seq = A, Ack = (S + 1) mod 2^32 and Window = W.  This holds for
the IPv4 and for the IPv6 observer (both store into the table `ConnInfo4`). -/
theorem C1_syn_record_rotated (ParseIP : String → List Nat) (localIP : List Nat)
    (ipv6 : Bool) (s : MonitorState) (tcp : TCP) (addr : String)
    (hsyn : tcp.SYN = true) (hreg : (s.ConnSyn addr).isSome = true) :
    ∃ rec, (connectionMonitorStep ParseIP localIP ipv6 s (Capture.packet tcp addr)).ConnInfo4
          tcp.DstPort = some rec
      ∧ rec.TCP.SrcPort = tcp.DstPort ∧ rec.TCP.DstPort = tcp.SrcPort
      ∧ rec.TCP.Seq = tcp.Ack ∧ rec.TCP.Ack = (tcp.Seq + 1) % 2 ^ 32
      ∧ rec.TCP.Window = tcp.Window := by
  obtain ⟨v, hv⟩ := Option.isSome_iff_exists.mp hreg
  cases ipv6 <;>
    simp [connectionMonitorStep, hsyn, hv, tableSet, rotate]

/-- C1 at concrete captures: the IPv4 observer with a SYN/ACK from 192.0.2.1,
ports 443 → 40000, Seq = 4294967295, Ack = 9, Window = 512 (the acknowledgment
wraps to 0), and the IPv6 observer with a SYN/ACK from 2001:db8::1, ports
443 → 40000, Seq = 7, Ack = 9, Window = 512. -/
theorem C1_syn_record_rotated_witness :
    (∃ rec, (connectionMonitorStep parseSample local4 false oneInterest4
          (Capture.packet (synPacket 443 40000 4294967295 9 512) "192.0.2.1")).ConnInfo4
          40000 = some rec
      ∧ rec.TCP.SrcPort = 40000 ∧ rec.TCP.DstPort = 443
      ∧ rec.TCP.Seq = 9 ∧ rec.TCP.Ack = (4294967295 + 1) % 2 ^ 32
      ∧ rec.TCP.Window = 512)
    ∧ (∃ rec, (connectionMonitorStep parseSample local6 true oneInterest6
          (Capture.packet (synPacket 443 40000 7 9 512) "2001:db8::1")).ConnInfo4
          40000 = some rec
      ∧ rec.TCP.SrcPort = 40000 ∧ rec.TCP.DstPort = 443
      ∧ rec.TCP.Seq = 9 ∧ rec.TCP.Ack = (7 + 1) % 2 ^ 32
      ∧ rec.TCP.Window = 512) :=
  ⟨C1_syn_record_rotated parseSample local4 false oneInterest4
      (synPacket 443 40000 4294967295 9 512) "192.0.2.1" (by decide) (by decide),
   C1_syn_record_rotated parseSample local6 true oneInterest6
      (synPacket 443 40000 7 9 512) "2001:db8::1" (by decide) (by decide)⟩

/-- C6, as stated, fails: the interest map holds the single key "192.0.2.1"
(with value 1), no entry names local port 5000 or 6000 (there is no
"192.0.2.1:5000" or "192.0.2.1:6000" entry), and yet the SYN packets from
192.0.2.1 to local port 5000 and to local port 6000 are both stored. -/
theorem C6_counterexample :
    oneInterest4.ConnSyn "192.0.2.1" = some 1
      ∧ specInterestMatch oneInterest4.ConnSyn "192.0.2.1" 5000 = false
      ∧ specInterestMatch oneInterest4.ConnSyn "192.0.2.1" 6000 = false
      ∧ (connectionMonitorStep parseSample local4 false oneInterest4
          (Capture.packet (synPacket 443 5000 7 9 512) "192.0.2.1")).ConnInfo4 5000
        = some ⟨NetworkLayer.v4 (ipv4Template local4 (parseSample "192.0.2.1")),
            rotate (synPacket 443 5000 7 9 512)⟩
      ∧ (connectionMonitorStep parseSample local4 false oneInterest4
          (Capture.packet (synPacket 443 6000 7 9 512) "192.0.2.1")).ConnInfo4 6000
        = some ⟨NetworkLayer.v4 (ipv4Template local4 (parseSample "192.0.2.1")),
            rotate (synPacket 443 6000 7 9 512)⟩
      ∧ oneInterest4.ConnInfo4 5000 = none ∧ oneInterest4.ConnInfo4 6000 = none := by
  decide

/-- C6 (amended): the observer stores a record for a captured packet exactly when
the packet has SYN set and the interest map has a key equal to the text of the
packet's remote address; the local port is not consulted.  In every other case
(read error, SYN clear, or no key for the remote address) the state, hence both
tables, is unchanged. -/
theorem C6_store_condition (ParseIP : String → List Nat) (localIP : List Nat) (ipv6 : Bool)
    (s : MonitorState) (tcp : TCP) (addr : String) :
    (tcp.SYN = true ∧ (s.ConnSyn addr).isSome = true →
        ∃ rec, (connectionMonitorStep ParseIP localIP ipv6 s
          (Capture.packet tcp addr)).ConnInfo4 tcp.DstPort = some rec)
      ∧ (¬ (tcp.SYN = true ∧ (s.ConnSyn addr).isSome = true) →
        connectionMonitorStep ParseIP localIP ipv6 s (Capture.packet tcp addr) = s)
      ∧ connectionMonitorStep ParseIP localIP ipv6 s Capture.readErr = s := by
  refine ⟨?_, ?_, rfl⟩
  · rintro ⟨hsyn, hreg⟩
    obtain ⟨v, hv⟩ := Option.isSome_iff_exists.mp hreg
    cases ipv6 <;> simp [connectionMonitorStep, hsyn, hv, tableSet]
  · intro h
    unfold connectionMonitorStep
    cases hs : tcp.SYN
    · simp [hs]
    · cases hc : s.ConnSyn addr
      · simp [hs, hc]
      · exact absurd ⟨hs, by simp [hc]⟩ h

/-- C6 (amended) at concrete captures: the packet from the registered address
192.0.2.1 is stored whatever its local port, the packet from the unregistered
address 198.51.100.9 leaves the state unchanged. -/
theorem C6_store_condition_witness :
    (∃ rec, (connectionMonitorStep parseSample local4 false oneInterest4
          (Capture.packet (synPacket 443 5000 7 9 512) "192.0.2.1")).ConnInfo4 5000 = some rec)
      ∧ connectionMonitorStep parseSample local4 false oneInterest4
          (Capture.packet (synPacket 443 5000 7 9 512) "198.51.100.9") = oneInterest4 :=
  ⟨(C6_store_condition parseSample local4 false oneInterest4 (synPacket 443 5000 7 9 512)
      "192.0.2.1").1 ⟨by decide, by decide⟩,
   (C6_store_condition parseSample local4 false oneInterest4 (synPacket 443 5000 7 9 512)
      "198.51.100.9").2.1 (by decide)⟩

/-- C7 at the failing input: the IPv6 observer captures a SYN/ACK from
2001:db8::1 for local port 40000.  The record lands in `ConnInfo4[40000]`, and
`ConnInfo6[40000]` stays empty. -/
theorem C7_ipv6_record_lands_in_ConnInfo4 :
    (connectionMonitorStep parseSample local6 true oneInterest6
        (Capture.packet (synPacket 443 40000 7 9 512) "2001:db8::1")).ConnInfo4 40000
      = some ⟨NetworkLayer.v6 (ipv6Template local6 (parseSample "2001:db8::1")),
          rotate (synPacket 443 40000 7 9 512)⟩
    ∧ (connectionMonitorStep parseSample local6 true oneInterest6
        (Capture.packet (synPacket 443 40000 7 9 512) "2001:db8::1")).ConnInfo6 40000
      = none
    ∧ oneInterest6.ConnInfo4 40000 = none := by
  decide

/-! ### Injector: what the serializer returns -/

/-- The send loop leaves the record, the header, the options and the packet bytes
as they were handed to it. -/
theorem sendAll_fields (env : RawSocketEnv) (connInfo : ConnectionInfo) (tcpLayer : TCP)
    (options : SerializeOptions) (pkt : List Nat) (count : Int) :
    (sendAll env connInfo tcpLayer options pkt count).tcpLayer = tcpLayer
      ∧ (sendAll env connInfo tcpLayer options pkt count).connInfo = connInfo
      ∧ (sendAll env connInfo tcpLayer options pkt count).options = options
      ∧ (sendAll env connInfo tcpLayer options pkt count).outgoingPacket = pkt := by
  unfold sendAll
  split
  · simp
  · split
    simp

/-- The length fix-up touches neither the acknowledgment number, nor the ACK flag,
nor the option list. -/
theorem tcpFixLengths_fields (opts : SerializeOptions) (t : TCP) :
    (tcpFixLengths opts t).Ack = t.Ack ∧ (tcpFixLengths opts t).ACK = t.ACK
      ∧ (tcpFixLengths opts t).Options = t.Options := by
  unfold tcpFixLengths
  dsimp only
  split
  · split <;> simp
  · simp

/-- An address accepted by `To4` comes out four bytes long. -/
theorem To4_length (a b : List Nat) (h : To4 a = some b) : b.length = 4 := by
  unfold To4 at h
  split at h
  · simp at h; subst h; assumption
  · split at h
    · next h16 =>
      simp at h; subst h
      simp [h16.1]
    · simp at h

/-- The result of `To4` is accepted by `To4` unchanged. -/
theorem To4_idem (a b : List Nat) (h : To4 a = some b) : To4 b = some b := by
  have := To4_length a b h
  simp [To4, this]

/-- The fixed part of the IPv4 header is ten bytes long. -/
theorem ipv4FixedBytes_length (ip : IPv4) : (ipv4FixedBytes ip).length = 10 := by
  simp [ipv4FixedBytes, putUint16]

/-- Byte 8 of an IPv4 header is the TTL of the record, as a byte. -/
theorem ipv4FixedBytes_ttl (ip : IPv4) (rest : List Nat) :
    (ipv4FixedBytes ip ++ rest).get? 8 = some (ip.TTL % 256) := by
  simp [ipv4FixedBytes, putUint16]

/-- The fixed part of the IPv6 header is eight bytes long. -/
theorem ipv6FixedBytes_length (ip : IPv6) : (ipv6FixedBytes ip).length = 8 := by
  simp [ipv6FixedBytes, putUint16]

/-- Byte 7 of an IPv6 header is the hop limit of the record, as a byte. -/
theorem ipv6FixedBytes_hopLimit (ip : IPv6) (rest : List Nat) :
    (ipv6FixedBytes ip ++ rest).get? 7 = some (ip.HopLimit % 256) := by
  simp [ipv6FixedBytes, putUint16]

/-- With addresses `To4` accepts, the IPv4 serializer succeeds: 20 header bytes,
TTL in byte 8, TTL of the record kept, addresses normalised. -/
theorem ipv4SerializeTo_valid (opts : SerializeOptions) (ip : IPv4) (rest src dst : List Nat)
    (hs : To4 ip.SrcIP = some src) (hd : To4 ip.DstIP = some dst) :
    ∃ ip1 hdr, ipv4SerializeTo opts ip rest = (ip1, hdr, false) ∧ hdr.length = 20
      ∧ hdr.get? 8 = some (ip.TTL % 256) ∧ ip1.TTL = ip.TTL ∧ ip1.DstIP = dst
      ∧ ip1.SrcIP = src := by
  have hsl := To4_length _ _ hs
  have hdl := To4_length _ _ hd
  unfold ipv4SerializeTo
  cases hf : opts.FixLengths <;> cases hc : opts.ComputeChecksums <;>
    simp only [hs, hd, if_true, if_false, Bool.false_eq_true] <;>
    refine ⟨_, _, rfl, ?_, ?_, rfl, rfl, rfl⟩
  all_goals first
    | (rw [List.append_assoc, List.append_assoc]; exact ipv4FixedBytes_ttl _ _)
    | simp [hsl, hdl, ipv4FixedBytes_length, putUint16]

/-- The header bytes of an IPv6 record with 16-byte addresses: 40 bytes, no
error. -/
theorem ipv6HeaderBytes_valid (ip : IPv6) (hs : ip.SrcIP.length = 16)
    (hd : ip.DstIP.length = 16) :
    ipv6HeaderBytes ip = (ipv6FixedBytes ip ++ ip.SrcIP ++ ip.DstIP, false)
      ∧ (ipv6FixedBytes ip ++ ip.SrcIP ++ ip.DstIP).length = 40 := by
  constructor
  · simp [ipv6HeaderBytes, hs, hd]
  · simp [hs, hd, ipv6FixedBytes_length]

/-- With 16-byte addresses, no hop-by-hop header on the record and `FixLengths`
on, the IPv6 serializer succeeds: 40 header bytes, followed by the 8-byte
hop-by-hop header exactly when the record leaves with one (a jumbogram); hop
limit in byte 7, hop limit and addresses of the record kept. -/
theorem ipv6SerializeTo_valid (opts : SerializeOptions) (ip : IPv6) (rest : List Nat)
    (hfix : opts.FixLengths = true)
    (hs : ip.SrcIP.length = 16) (hd : ip.DstIP.length = 16) (hh : ip.HopByHop = none) :
    ∃ ip1 hdr, ipv6SerializeTo opts ip rest = (ip1, hdr, false)
      ∧ hdr.length = (if ip1.HopByHop.isSome then 48 else 40)
      ∧ hdr.get? 7 = some (ip.HopLimit % 256) ∧ ip1.HopLimit = ip.HopLimit
      ∧ ip1.DstIP = ip.DstIP ∧ ip1.SrcIP = ip.SrcIP := by
  obtain ⟨ver, tc, fl, len, nxt, hop, src, dst, hbh⟩ := ip
  simp only at hs hd hh
  subst hh
  unfold ipv6SerializeTo
  by_cases hj : 65535 < rest.length
  · simp only [hj, if_true, hfix, Option.getD_none]
    obtain ⟨hb, hl⟩ := ipv6HeaderBytes_valid
      ⟨ver, tc, fl, 0, 0, hop, src, dst, some nxt⟩ hs hd
    rw [hb]
    refine ⟨_, _, rfl, ?_, ?_, rfl, rfl, rfl⟩
    · simp only [Option.isSome_some, if_true, List.length_append, hl]
      simp [hopByHopBytes, putUint32]
    · rw [List.append_assoc, List.append_assoc]
      exact ipv6FixedBytes_hopLimit _ _
  · simp only [hj, if_false, hfix, if_true]
    obtain ⟨hb, hl⟩ := ipv6HeaderBytes_valid
      ⟨ver, tc, fl, rest.length % 65536, nxt, hop, src, dst, none⟩ hs hd
    rw [hb]
    refine ⟨_, _, rfl, ?_, ?_, rfl, rfl, rfl⟩
    · simp only [Option.isSome_none, Bool.false_eq_true, if_false, hl]
    · rw [List.append_assoc]
      exact ipv6FixedBytes_hopLimit _ _

/-- The injector always serializes with `FixLengths` on. -/
theorem buildSerializeOptions_FixLengths (m : OptionBits) (config : Config) :
    (buildSerializeOptions m config).FixLengths = true := by
  unfold buildSerializeOptions
  dsimp only
  split <;> rfl

/-- The length fix-up does not touch the checksum field of the record. -/
theorem tcpFixLengths_Checksum (opts : SerializeOptions) (t : TCP) :
    (tcpFixLengths opts t).Checksum = t.Checksum := by
  unfold tcpFixLengths
  dsimp only
  split
  · split <;> simp
  · simp

/-- The checksum is computed whenever the pseudo-header sum is available. -/
theorem computeChecksum_isSome (pseudo : NetworkLayer) (data : List Nat)
    (h : (pseudoheaderChecksum pseudo).isSome = true) :
    ∃ c, computeChecksum pseudo data = some c := by
  obtain ⟨p, hp⟩ := Option.isSome_iff_exists.mp h
  simp [computeChecksum, hp]

/-- The checksum depends on the network layer only through its pseudo-header sum. -/
theorem computeChecksum_congr (a b : NetworkLayer) (data : List Nat)
    (h : pseudoheaderChecksum a = pseudoheaderChecksum b) :
    computeChecksum a data = computeChecksum b data := by
  simp [computeChecksum, h]

/-- A network layer with valid addresses has a pseudo-header sum. -/
theorem pseudoheaderChecksum_valid (ip : NetworkLayer)
    (h : validAddrs ip = true) : (pseudoheaderChecksum ip).isSome = true := by
  cases ip with
  | v4 ip =>
    simp only [validAddrs, Bool.and_eq_true] at h
    obtain ⟨s, hs⟩ := Option.isSome_iff_exists.mp h.1
    obtain ⟨d, hd⟩ := Option.isSome_iff_exists.mp h.2
    simp [pseudoheaderChecksum, hs, hd]
  | v6 ip =>
    simp only [validAddrs, Bool.and_eq_true, decide_eq_true_eq] at h
    simp [pseudoheaderChecksum, h.1.1, h.1.2]
  | other => simp [validAddrs] at h
  | absent => simp [validAddrs] at h

/-- The TCP serializer succeeds whenever it does not need a pseudo-header sum or
has one; the checksum it writes is the field of the record when
`ComputeChecksums` is off, and the computed one when it is on. -/
theorem tcpSerializeTo_ok (opts : SerializeOptions) (pseudo : NetworkLayer) (t : TCP)
    (payload : List Nat)
    (h : opts.ComputeChecksums = true → (pseudoheaderChecksum pseudo).isSome = true) :
    ∃ csum, tcpSerializeTo opts pseudo t payload
        = ({ tcpFixLengths opts t with Checksum := csum },
            tcpHeaderBytes opts (tcpFixLengths opts t) csum, false)
      ∧ (opts.ComputeChecksums = false → csum = t.Checksum)
      ∧ (opts.ComputeChecksums = true →
          computeChecksum pseudo (tcpHeaderBytes opts (tcpFixLengths opts t) 0 ++ payload)
            = some csum) := by
  unfold tcpSerializeTo
  dsimp only
  cases hc : opts.ComputeChecksums
  · refine ⟨t.Checksum, ?_, fun _ => rfl, fun h => by simp at h⟩
    have he : tcpFixLengths opts t
        = { tcpFixLengths opts t with Checksum := t.Checksum } := by
      rw [← tcpFixLengths_Checksum opts t]
    simp only [Bool.false_eq_true, if_false, tcpFixLengths_Checksum]
    rw [← he]
  · obtain ⟨c, hcs⟩ := computeChecksum_isSome pseudo
      (tcpHeaderBytes opts (tcpFixLengths opts t) 0 ++ payload) (h hc)
    refine ⟨c, ?_, fun h => by simp at h, fun _ => hcs⟩
    simp [hcs]

/-- What `SendFakePacket` returns for an IPv4 record with valid addresses. -/
theorem SendFakePacket_v4 (m : OptionBits) (env : RawSocketEnv) (ip : IPv4) (tcp : TCP)
    (payload : List Nat) (config : Config) (count : Int)
    (hv : validAddrs (NetworkLayer.v4 ip) = true) :
    ∃ ip1 iphdr csum,
      SendFakePacket m env ⟨NetworkLayer.v4 ip, tcp⟩ payload config count
        = some (sendAll env ⟨NetworkLayer.v4 ip1, tcp⟩
            { tcpFixLengths (buildSerializeOptions m config)
                (buildTCPLayer m ⟨NetworkLayer.v4 ip, tcp⟩ config) with Checksum := csum }
            (buildSerializeOptions m config)
            (iphdr ++ (tcpHeaderBytes (buildSerializeOptions m config)
              (tcpFixLengths (buildSerializeOptions m config)
                (buildTCPLayer m ⟨NetworkLayer.v4 ip, tcp⟩ config)) csum ++ payload)) count)
      ∧ iphdr.length = 20
      ∧ iphdr.get? 8
          = some ((if config.Option &&& m.OPT_TTL != 0 then config.TTL else ip.TTL) % 256)
      ∧ ip1.TTL = (if config.Option &&& m.OPT_TTL != 0 then config.TTL else ip.TTL)
      ∧ ((buildSerializeOptions m config).ComputeChecksums = false → csum = 0)
      ∧ ((buildSerializeOptions m config).ComputeChecksums = true →
          computeChecksum (NetworkLayer.v4 ip1)
            (tcpHeaderBytes (buildSerializeOptions m config)
              (tcpFixLengths (buildSerializeOptions m config)
                (buildTCPLayer m ⟨NetworkLayer.v4 ip, tcp⟩ config)) 0 ++ payload)
            = some csum) := by
  simp only [validAddrs, Bool.and_eq_true] at hv
  obtain ⟨src, hs⟩ := Option.isSome_iff_exists.mp hv.1
  obtain ⟨dst, hd⟩ := Option.isSome_iff_exists.mp hv.2
  have happ : applyTTL m config (NetworkLayer.v4 ip)
      = NetworkLayer.v4 { ip with TTL :=
          if config.Option &&& m.OPT_TTL != 0 then config.TTL else ip.TTL } := by
    by_cases hb : (config.Option &&& m.OPT_TTL != 0) = true <;> simp [applyTTL, hb]
  have hps : (buildSerializeOptions m config).ComputeChecksums = true →
      (pseudoheaderChecksum (NetworkLayer.v4 { ip with TTL :=
          if config.Option &&& m.OPT_TTL != 0 then config.TTL else ip.TTL })).isSome = true := by
    intro _
    simp [pseudoheaderChecksum, hs, hd]
  obtain ⟨csum, htcp, hc0, hc1⟩ := tcpSerializeTo_ok (buildSerializeOptions m config) _
    (buildTCPLayer m ⟨NetworkLayer.v4 ip, tcp⟩ config) payload hps
  obtain ⟨ip1, iphdr, hip, hlen, httl, hTTL, hdst, hsrc⟩ :=
    ipv4SerializeTo_valid (buildSerializeOptions m config)
      { ip with TTL := if config.Option &&& m.OPT_TTL != 0 then config.TTL else ip.TTL }
      (tcpHeaderBytes (buildSerializeOptions m config)
        (tcpFixLengths (buildSerializeOptions m config)
          (buildTCPLayer m ⟨NetworkLayer.v4 ip, tcp⟩ config)) csum ++ payload) src dst hs hd
  refine ⟨ip1, iphdr, csum, ?_, hlen, httl, hTTL, ?_, ?_⟩
  · unfold SendFakePacket
    simp only [happ, SerializeLayers4, htcp, hip, hdst, To4_idem _ _ hd]
  · intro h
    rw [hc0 h]
    unfold buildTCPLayer
    dsimp only
    split <;> split <;> (try split) <;> rfl
  · intro h
    rw [← hc1 h]
    apply computeChecksum_congr
    simp [pseudoheaderChecksum, hs, hd, hsrc, hdst, To4_idem _ _ hs, To4_idem _ _ hd]

/-- What `SendFakePacket` returns for an IPv6 record with valid addresses. -/
theorem SendFakePacket_v6 (m : OptionBits) (env : RawSocketEnv) (ip : IPv6) (tcp : TCP)
    (payload : List Nat) (config : Config) (count : Int)
    (hv : validAddrs (NetworkLayer.v6 ip) = true) :
    ∃ ip1 iphdr csum,
      SendFakePacket m env ⟨NetworkLayer.v6 ip, tcp⟩ payload config count
        = some (sendAll env ⟨NetworkLayer.v6 ip1, tcp⟩
            { tcpFixLengths (buildSerializeOptions m config)
                (buildTCPLayer m ⟨NetworkLayer.v6 ip, tcp⟩ config) with Checksum := csum }
            (buildSerializeOptions m config)
            (iphdr ++ (tcpHeaderBytes (buildSerializeOptions m config)
              (tcpFixLengths (buildSerializeOptions m config)
                (buildTCPLayer m ⟨NetworkLayer.v6 ip, tcp⟩ config)) csum ++ payload)) count)
      ∧ iphdr.length = (if ip1.HopByHop.isSome then 48 else 40)
      ∧ iphdr.get? 7
          = some ((if config.Option &&& m.OPT_TTL != 0 then config.TTL else ip.HopLimit) % 256)
      ∧ ip1.HopLimit = (if config.Option &&& m.OPT_TTL != 0 then config.TTL else ip.HopLimit)
      ∧ ((buildSerializeOptions m config).ComputeChecksums = false → csum = 0)
      ∧ ((buildSerializeOptions m config).ComputeChecksums = true →
          computeChecksum (NetworkLayer.v6 ip1)
            (tcpHeaderBytes (buildSerializeOptions m config)
              (tcpFixLengths (buildSerializeOptions m config)
                (buildTCPLayer m ⟨NetworkLayer.v6 ip, tcp⟩ config)) 0 ++ payload)
            = some csum) := by
  simp only [validAddrs, Bool.and_eq_true, decide_eq_true_eq, Option.isNone_iff_eq_none] at hv
  obtain ⟨⟨hs, hd⟩, hh⟩ := hv
  have happ : applyTTL m config (NetworkLayer.v6 ip)
      = NetworkLayer.v6 { ip with HopLimit :=
          if config.Option &&& m.OPT_TTL != 0 then config.TTL else ip.HopLimit } := by
    by_cases hb : (config.Option &&& m.OPT_TTL != 0) = true <;> simp [applyTTL, hb]
  have hps : (buildSerializeOptions m config).ComputeChecksums = true →
      (pseudoheaderChecksum (NetworkLayer.v6 { ip with HopLimit :=
          if config.Option &&& m.OPT_TTL != 0 then config.TTL else ip.HopLimit })).isSome
        = true := by
    intro _
    simp [pseudoheaderChecksum, hs, hd]
  obtain ⟨csum, htcp, hc0, hc1⟩ := tcpSerializeTo_ok (buildSerializeOptions m config) _
    (buildTCPLayer m ⟨NetworkLayer.v6 ip, tcp⟩ config) payload hps
  obtain ⟨ip1, iphdr, hip, hlen, httl, hTTL, hdst, hsrc⟩ :=
    ipv6SerializeTo_valid (buildSerializeOptions m config)
      { ip with HopLimit :=
          if config.Option &&& m.OPT_TTL != 0 then config.TTL else ip.HopLimit }
      (tcpHeaderBytes (buildSerializeOptions m config)
        (tcpFixLengths (buildSerializeOptions m config)
          (buildTCPLayer m ⟨NetworkLayer.v6 ip, tcp⟩ config)) csum ++ payload)
      (buildSerializeOptions_FixLengths m config) hs hd hh
  refine ⟨ip1, iphdr, csum, ?_, hlen, httl, hTTL, ?_, ?_⟩
  · unfold SendFakePacket
    simp only [happ, SerializeLayers6, htcp, hip, hdst]
    simp [hd]
  · intro h
    rw [hc0 h]
    unfold buildTCPLayer
    dsimp only
    split <;> split <;> (try split) <;> rfl
  · intro h
    rw [← hc1 h]
    apply computeChecksum_congr
    simp [pseudoheaderChecksum, hs, hd, hsrc, hdst]

/-- For a non-nil network layer that is neither IPv4 nor IPv6 the header is
built, nothing is serialized or sent, and the call returns an error. -/
theorem SendFakePacket_other (m : OptionBits) (env : RawSocketEnv) (tcp : TCP)
    (payload : List Nat) (config : Config) (count : Int) :
    SendFakePacket m env ⟨NetworkLayer.other, tcp⟩ payload config count
      = some ⟨⟨NetworkLayer.other, tcp⟩, buildTCPLayer m ⟨NetworkLayer.other, tcp⟩ config,
          buildSerializeOptions m config, [], 0, true⟩ := by
  simp [SendFakePacket, applyTTL]

/-- For a nil network layer the call panics. -/
theorem SendFakePacket_absent (m : OptionBits) (env : RawSocketEnv) (tcp : TCP)
    (payload : List Nat) (config : Config) (count : Int) :
    SendFakePacket m env ⟨NetworkLayer.absent, tcp⟩ payload config count = none := by
  simp [SendFakePacket, applyTTL]

/-- For an IPv4 or IPv6 record with valid addresses `SendFakePacket` returns, and
the TCP segment inside the packet it sends is the header laid out for the built
`tcpLayer` after the length fix-up, followed by the payload. -/
theorem SendFakePacket_segment (m : OptionBits) (env : RawSocketEnv)
    (connInfo : ConnectionInfo) (payload : List Nat) (config : Config) (count : Int)
    (hv : validAddrs connInfo.IP = true) :
    ∃ o csum, SendFakePacket m env connInfo payload config count = some o
      ∧ o.tcpLayer = { tcpFixLengths (buildSerializeOptions m config)
            (buildTCPLayer m connInfo config) with Checksum := csum }
      ∧ o.options = buildSerializeOptions m config
      ∧ tcpSegmentOf o.connInfo.IP o.outgoingPacket
          = tcpHeaderBytes (buildSerializeOptions m config)
              (tcpFixLengths (buildSerializeOptions m config)
                (buildTCPLayer m connInfo config)) csum ++ payload
      ∧ ((buildSerializeOptions m config).ComputeChecksums = false → csum = 0)
      ∧ ((buildSerializeOptions m config).ComputeChecksums = true →
          computeChecksum o.connInfo.IP
            (tcpHeaderBytes (buildSerializeOptions m config)
              (tcpFixLengths (buildSerializeOptions m config)
                (buildTCPLayer m connInfo config)) 0 ++ payload)
            = some csum) := by
  obtain ⟨ipl, tcp⟩ := connInfo
  cases ipl with
  | v4 ip =>
    obtain ⟨ip1, iphdr, csum, h, hlen, -, -, hc, hc1⟩ :=
      SendFakePacket_v4 m env ip tcp payload config count hv
    refine ⟨_, csum, h, (sendAll_fields _ _ _ _ _ _).1, (sendAll_fields _ _ _ _ _ _).2.2.1,
      ?_, hc, ?_⟩
    · rw [(sendAll_fields _ _ _ _ _ _).2.1, (sendAll_fields _ _ _ _ _ _).2.2.2]
      simp [tcpSegmentOf, ← hlen]
    · rw [(sendAll_fields _ _ _ _ _ _).2.1]
      exact hc1
  | v6 ip =>
    obtain ⟨ip1, iphdr, csum, h, hlen, -, -, hc, hc1⟩ :=
      SendFakePacket_v6 m env ip tcp payload config count hv
    refine ⟨_, csum, h, (sendAll_fields _ _ _ _ _ _).1, (sendAll_fields _ _ _ _ _ _).2.2.1,
      ?_, hc, ?_⟩
    · rw [(sendAll_fields _ _ _ _ _ _).2.1, (sendAll_fields _ _ _ _ _ _).2.2.2]
      cases hh : ip1.HopByHop <;> simp [tcpSegmentOf, hh] at hlen ⊢ <;> simp [← hlen]
    · rw [(sendAll_fields _ _ _ _ _ _).2.1]
      exact hc1
  | other => simp [validAddrs] at hv
  | absent => simp [validAddrs] at hv

/-! ### Injector: the claims -/

/-- With `OPT_WCSUM` set the injector serializes with `ComputeChecksums` off. -/
theorem buildSerializeOptions_wcsum (m : OptionBits) (config : Config)
    (hw : config.Option &&& m.OPT_WCSUM ≠ 0) :
    (buildSerializeOptions m config).ComputeChecksums = false := by
  simp [buildSerializeOptions, hw]

/-- The checksum field read back from a serialized segment is the value laid
out in bytes 16 and 17 of its header. -/
theorem checksumField_header (opts : SerializeOptions) (t : TCP) (csum : Nat)
    (payload : List Nat) :
    checksumField (tcpHeaderBytes opts t csum ++ payload)
      = csum / 256 % 256 * 256 + csum % 256 := by
  simp [checksumField, tcpHeaderBytes, putUint16, putUint32]

/-- The TCP serializer keeps the acknowledgment number, the ACK flag and the
options of the header record. -/
theorem tcpSerializeTo_fields (opts : SerializeOptions) (pseudo : NetworkLayer) (t : TCP)
    (payload : List Nat) :
    (tcpSerializeTo opts pseudo t payload).1.Ack = t.Ack
      ∧ (tcpSerializeTo opts pseudo t payload).1.ACK = t.ACK
      ∧ (tcpSerializeTo opts pseudo t payload).1.Options = t.Options := by
  have hf := tcpFixLengths_fields opts t
  unfold tcpSerializeTo
  dsimp only
  split
  · split <;> exact hf
  · exact hf

/-- The header record left by the IPv4 serializer run is the one the TCP
serializer returns. -/
theorem SerializeLayers4_tcp (opts : SerializeOptions) (ip : IPv4) (t : TCP)
    (payload : List Nat) :
    (SerializeLayers4 opts ip t payload).tcp
      = (tcpSerializeTo opts (NetworkLayer.v4 ip) t payload).1 := by
  unfold SerializeLayers4
  split
  · next h => simp [h]
  · next h => simp [h]

/-- The header record left by the IPv6 serializer run is the one the TCP
serializer returns. -/
theorem SerializeLayers6_tcp (opts : SerializeOptions) (ip : IPv6) (t : TCP)
    (payload : List Nat) :
    (SerializeLayers6 opts ip t payload).tcp
      = (tcpSerializeTo opts (NetworkLayer.v6 ip) t payload).1 := by
  unfold SerializeLayers6
  split
  · next h => simp [h]
  · next h => simp [h]

/-- Whenever `SendFakePacket` returns, whatever the record, the header it went
through with keeps the acknowledgment number, the ACK flag and the options of
the header built at raw.go:143-165. -/
theorem SendFakePacket_returned_header (m : OptionBits) (env : RawSocketEnv)
    (connInfo : ConnectionInfo) (payload : List Nat) (config : Config) (count : Int)
    (o : SendOutcome) (h : SendFakePacket m env connInfo payload config count = some o) :
    o.tcpLayer.Ack = (buildTCPLayer m connInfo config).Ack
      ∧ o.tcpLayer.ACK = (buildTCPLayer m connInfo config).ACK
      ∧ o.tcpLayer.Options = (buildTCPLayer m connInfo config).Options := by
  unfold SendFakePacket at h
  simp only at h
  split at h
  · next ip hip =>
    split at h
    · split at h
      · simp at h
      · simp only [Option.some.injEq] at h
        rw [← h, (sendAll_fields _ _ _ _ _ _).1, SerializeLayers4_tcp]
        exact tcpSerializeTo_fields _ _ _ _
    · simp at h
  · next ip hip =>
    split at h
    · split at h
      · simp at h
      · simp only [Option.some.injEq] at h
        rw [← h, (sendAll_fields _ _ _ _ _ _).1, SerializeLayers6_tcp]
        exact tcpSerializeTo_fields _ _ _ _
    · simp at h
  · simp only [Option.some.injEq] at h
    rw [← h]
    exact ⟨rfl, rfl, rfl⟩
  · simp at h

/-- C2, as stated, fails: with `OPT_WCSUM` set, the segment for the IPv4 flow
10.0.0.1:40000 → 192.0.2.1:443 (Seq 2000, Ack 1001, Window 512) and payload
`[56, 20]` is serialized with checksum field 0, and 0 is the correct checksum
of that segment. -/
theorem C2_counterexample :
    (⟨32, 0⟩ : Config).Option &&& sampleBits.OPT_WCSUM ≠ 0
      ∧ (SendFakePacket sampleBits quietEnv sampleConn4 [56, 20] ⟨32, 0⟩ 1).map
          (fun o => (checksumField (tcpSegmentOf o.connInfo.IP o.outgoingPacket),
            correctTCPChecksum o.connInfo.IP (tcpSegmentOf o.connInfo.IP o.outgoingPacket)))
        = some (0, some 0) := by
  decide

/-- C2 (amended): for an IPv4 or IPv6 record with usable addresses, with
`OPT_WCSUM` set the serializer runs with `ComputeChecksums` off and the TCP
checksum field of the serialized segment is 0 (it is never computed); so it
differs from the correct checksum of that segment exactly when the correct
checksum is not 0. -/
theorem C2_wcsum_checksum_field_zero (m : OptionBits) (env : RawSocketEnv)
    (connInfo : ConnectionInfo) (payload : List Nat) (config : Config) (count : Int)
    (hw : config.Option &&& m.OPT_WCSUM ≠ 0) (hv : validAddrs connInfo.IP = true) :
    ∃ o, SendFakePacket m env connInfo payload config count = some o
      ∧ o.options.ComputeChecksums = false
      ∧ checksumField (tcpSegmentOf o.connInfo.IP o.outgoingPacket) = 0
      ∧ ∀ c, correctTCPChecksum o.connInfo.IP (tcpSegmentOf o.connInfo.IP o.outgoingPacket)
            = some c →
          (checksumField (tcpSegmentOf o.connInfo.IP o.outgoingPacket) ≠ c ↔ c ≠ 0) := by
  have hcs := buildSerializeOptions_wcsum m config hw
  obtain ⟨o, csum, h, -, ho, hseg, hc, -⟩ :=
    SendFakePacket_segment m env connInfo payload config count hv
  have hf : checksumField (tcpSegmentOf o.connInfo.IP o.outgoingPacket) = 0 := by
    rw [hseg, checksumField_header, hc hcs]
  refine ⟨o, h, by rw [ho]; exact hcs, hf, fun c _ => ?_⟩
  rw [hf]
  exact ⟨fun h => Ne.symm h, fun h => Ne.symm h⟩

/-- C2 (amended) at concrete injections: the IPv4 and the IPv6 sample flow,
payload `[1, 2, 3]`, option mask 32 (`OPT_WCSUM` under the sample bits). -/
theorem C2_wcsum_checksum_field_zero_witness :
    (∃ o, SendFakePacket sampleBits quietEnv sampleConn4 [1, 2, 3] ⟨32, 0⟩ 3 = some o
      ∧ o.options.ComputeChecksums = false
      ∧ checksumField (tcpSegmentOf o.connInfo.IP o.outgoingPacket) = 0
      ∧ ∀ c, correctTCPChecksum o.connInfo.IP (tcpSegmentOf o.connInfo.IP o.outgoingPacket)
            = some c →
          (checksumField (tcpSegmentOf o.connInfo.IP o.outgoingPacket) ≠ c ↔ c ≠ 0))
    ∧ (∃ o, SendFakePacket sampleBits quietEnv sampleConn6 [1, 2, 3] ⟨32, 0⟩ 3 = some o
      ∧ o.options.ComputeChecksums = false
      ∧ checksumField (tcpSegmentOf o.connInfo.IP o.outgoingPacket) = 0
      ∧ ∀ c, correctTCPChecksum o.connInfo.IP (tcpSegmentOf o.connInfo.IP o.outgoingPacket)
            = some c →
          (checksumField (tcpSegmentOf o.connInfo.IP o.outgoingPacket) ≠ c ↔ c ≠ 0)) :=
  ⟨C2_wcsum_checksum_field_zero sampleBits quietEnv sampleConn4 [1, 2, 3] ⟨32, 0⟩ 3
      (by decide) (by decide),
   C2_wcsum_checksum_field_zero sampleBits quietEnv sampleConn6 [1, 2, 3] ⟨32, 0⟩ 3
      (by decide) (by decide)⟩

/-- C3: with `OPT_TTL` set and `config.TTL = k`, the packet `SendFakePacket`
serializes carries IPv4 TTL = k (byte 8) for an IPv4 flow and IPv6 HopLimit = k
(byte 7) for an IPv6 flow, and the record's template is updated to k; with
`OPT_TTL` clear the TTL / HopLimit of the record's template is carried. -/
theorem C3_ttl_override (m : OptionBits) (env : RawSocketEnv) (tcp : TCP)
    (payload : List Nat) (config : Config) (count : Int) (hk : config.TTL < 256) :
    (∀ ip : IPv4, validAddrs (NetworkLayer.v4 ip) = true → ip.TTL < 256 →
      ∃ o ip1, SendFakePacket m env ⟨NetworkLayer.v4 ip, tcp⟩ payload config count = some o
        ∧ o.connInfo.IP = NetworkLayer.v4 ip1
        ∧ (config.Option &&& m.OPT_TTL ≠ 0 →
            ttlByte o.outgoingPacket = some config.TTL ∧ ip1.TTL = config.TTL)
        ∧ (config.Option &&& m.OPT_TTL = 0 →
            ttlByte o.outgoingPacket = some ip.TTL ∧ ip1.TTL = ip.TTL))
    ∧ (∀ ip : IPv6, validAddrs (NetworkLayer.v6 ip) = true → ip.HopLimit < 256 →
      ∃ o ip1, SendFakePacket m env ⟨NetworkLayer.v6 ip, tcp⟩ payload config count = some o
        ∧ o.connInfo.IP = NetworkLayer.v6 ip1
        ∧ (config.Option &&& m.OPT_TTL ≠ 0 →
            hopLimitByte o.outgoingPacket = some config.TTL ∧ ip1.HopLimit = config.TTL)
        ∧ (config.Option &&& m.OPT_TTL = 0 →
            hopLimitByte o.outgoingPacket = some ip.HopLimit ∧ ip1.HopLimit = ip.HopLimit)) := by
  constructor
  · intro ip hv hip
    obtain ⟨ip1, iphdr, csum, h, hlen, hbyte, hfield, -, -⟩ :=
      SendFakePacket_v4 m env ip tcp payload config count hv
    have hpk : ∀ rest, ttlByte (iphdr ++ rest) = iphdr.get? 8 := by
      intro rest
      simp [ttlByte, List.getElem?_append_left, hlen]
    refine ⟨_, ip1, h, by rw [(sendAll_fields _ _ _ _ _ _).2.1], ?_, ?_⟩
    · intro hset
      rw [(sendAll_fields _ _ _ _ _ _).2.2.2, hpk, hbyte, hfield]
      simp [hset, Nat.mod_eq_of_lt hk]
    · intro hclr
      rw [(sendAll_fields _ _ _ _ _ _).2.2.2, hpk, hbyte, hfield]
      simp [hclr, Nat.mod_eq_of_lt hip]
  · intro ip hv hip
    obtain ⟨ip1, iphdr, csum, h, hlen, hbyte, hfield, -, -⟩ :=
      SendFakePacket_v6 m env ip tcp payload config count hv
    have h7 : 7 < iphdr.length := by
      rw [hlen]
      split <;> decide
    have hpk : ∀ rest, hopLimitByte (iphdr ++ rest) = iphdr.get? 7 := by
      intro rest
      simp [hopLimitByte, List.getElem?_append_left, h7]
    refine ⟨_, ip1, h, by rw [(sendAll_fields _ _ _ _ _ _).2.1], ?_, ?_⟩
    · intro hset
      rw [(sendAll_fields _ _ _ _ _ _).2.2.2, hpk, hbyte, hfield]
      simp [hset, Nat.mod_eq_of_lt hk]
    · intro hclr
      rw [(sendAll_fields _ _ _ _ _ _).2.2.2, hpk, hbyte, hfield]
      simp [hclr, Nat.mod_eq_of_lt hip]

/-- C3 at concrete injections: the IPv4 and the IPv6 sample flow (template TTL /
HopLimit 64) with option mask 1 (`OPT_TTL` under the sample bits) and
`config.TTL = 5`. -/
theorem C3_ttl_override_witness :
    (∃ o ip1, SendFakePacket sampleBits quietEnv sampleConn4 [1, 2, 3] ⟨1, 5⟩ 3 = some o
        ∧ o.connInfo.IP = NetworkLayer.v4 ip1
        ∧ ttlByte o.outgoingPacket = some 5 ∧ ip1.TTL = 5)
    ∧ (∃ o ip1, SendFakePacket sampleBits quietEnv sampleConn6 [1, 2, 3] ⟨1, 5⟩ 3 = some o
        ∧ o.connInfo.IP = NetworkLayer.v6 ip1
        ∧ hopLimitByte o.outgoingPacket = some 5 ∧ ip1.HopLimit = 5) := by
  have h := C3_ttl_override sampleBits quietEnv (rotate (synPacket 443 40000 1000 2000 512))
    [1, 2, 3] ⟨1, 5⟩ 3 (by decide)
  obtain ⟨o, ip1, h1, h2, h3, -⟩ := h.1 (ipv4Template local4 [192, 0, 2, 1]) (by decide)
    (by decide)
  obtain ⟨o6, ip6, g1, g2, g3, -⟩ := h.2 (ipv6Template local6 (parseSample "2001:db8::1"))
    (by decide) (by decide)
  exact ⟨⟨o, ip1, h1, h2, h3 (by decide)⟩, ⟨o6, ip6, g1, g2, g3 (by decide)⟩⟩
/-- The flags of the header built by `SendFakePacket`: PSH is set, and every
flag other than ACK and PSH is clear. -/
theorem buildTCPLayer_flags (m : OptionBits) (connInfo : ConnectionInfo) (config : Config) :
    (buildTCPLayer m connInfo config).FIN = false
      ∧ (buildTCPLayer m connInfo config).SYN = false
      ∧ (buildTCPLayer m connInfo config).RST = false
      ∧ (buildTCPLayer m connInfo config).PSH = true
      ∧ (buildTCPLayer m connInfo config).URG = false
      ∧ (buildTCPLayer m connInfo config).ECE = false
      ∧ (buildTCPLayer m connInfo config).CWR = false
      ∧ (buildTCPLayer m connInfo config).NS = false := by
  unfold buildTCPLayer
  dsimp only
  split <;> split <;> (try split) <;> simp [newTCPLayer]

/-- The data-offset nibble read back from a serialized segment is the top nibble
of the flags-and-offset word. -/
theorem dataOffsetOf_header (opts : SerializeOptions) (t : TCP) (csum : Nat)
    (payload : List Nat) :
    dataOffsetOf (tcpHeaderBytes opts t csum ++ payload) = flagsAndOffset t / 256 % 256 / 16 := by
  simp [dataOffsetOf, tcpHeaderBytes, putUint16, putUint32]

/-- For a header whose flags other than ACK and PSH are clear, the top nibble of
the flags-and-offset word is the data offset. -/
theorem flagsAndOffset_pshack (t : TCP) (d : Nat) (hd : t.DataOffset = d) (hd16 : d < 16)
    (h1 : t.FIN = false) (h2 : t.SYN = false) (h3 : t.RST = false) (h4 : t.PSH = true)
    (h5 : t.URG = false) (h6 : t.ECE = false) (h7 : t.CWR = false) (h8 : t.NS = false) :
    flagsAndOffset t / 256 % 256 / 16 = d := by
  unfold flagsAndOffset
  rw [hd, h1, h2, h3, h4, h5, h6, h7, h8]
  interval_cases d <;> cases t.ACK <;> decide

/-- C4 at the failing input: the IPv4 sample flow, an empty payload and option
mask 4 (`OPT_WMD5` under the sample bits).  The header record holds one option
with kind 19 and length field 18 beside 18 bytes of option data; the 20 option
bytes injected after the 20 fixed header bytes are `19, 20` and 18 zero bytes
(the length byte is 20, the option data 18 bytes), and the data offset is 10. -/
theorem C4_md5_option_length_mismatch :
    (⟨4, 0⟩ : Config).Option &&& sampleBits.OPT_WMD5 ≠ 0
      ∧ (SendFakePacket sampleBits quietEnv sampleConn4 [] ⟨4, 0⟩ 1).map
          (fun o => (o.tcpLayer.Options,
            (tcpSegmentOf o.connInfo.IP o.outgoingPacket).drop 20,
            dataOffsetOf (tcpSegmentOf o.connInfo.IP o.outgoingPacket)))
        = some ([⟨19, 18, [0, 0, 0, 0, 0, 0, 0, 0, 0, 0, 0, 0, 0, 0, 0, 0, 0, 0]⟩],
            [19, 20, 0, 0, 0, 0, 0, 0, 0, 0, 0, 0, 0, 0, 0, 0, 0, 0, 0, 0], 10) := by
  decide

/-- With `OPT_WMD5` set, for every IPv4 or IPv6 record with usable addresses: the
header record holds the single option of raw.go:156 (kind 19, length field 18,
18 zero bytes of data); the option bytes on the wire are `19, 20` and 18 zero
bytes; the serialized data offset is 10 (a 40-byte header). -/
theorem SendFakePacket_md5_header (m : OptionBits) (env : RawSocketEnv)
    (connInfo : ConnectionInfo) (payload : List Nat) (config : Config) (count : Int)
    (hmd5 : config.Option &&& m.OPT_WMD5 ≠ 0)
    (hv : validAddrs connInfo.IP = true) :
    ∃ o, SendFakePacket m env connInfo payload config count = some o
      ∧ o.tcpLayer.Options = [⟨19, 18, List.replicate 18 0⟩]
      ∧ ((tcpSegmentOf o.connInfo.IP o.outgoingPacket).drop 20).take 20
          = 19 :: 20 :: List.replicate 18 0
      ∧ o.tcpLayer.DataOffset = 10
      ∧ dataOffsetOf (tcpSegmentOf o.connInfo.IP o.outgoingPacket) = 10
      ∧ (tcpSegmentOf o.connInfo.IP o.outgoingPacket).length = 40 + payload.length := by
  obtain ⟨o, csum, h, ht, -, hseg, -, -⟩ :=
    SendFakePacket_segment m env connInfo payload config count hv
  have hfix := buildSerializeOptions_FixLengths m config
  have hopt : (buildTCPLayer m connInfo config).Options = [md5Option] := by
    unfold buildTCPLayer
    dsimp only
    simp only [bne_iff_ne, ne_eq, hmd5, not_false_eq_true, if_true]
    split
    · rfl
    · split <;> rfl
  have hpad : (buildTCPLayer m connInfo config).Padding = [] := by
    unfold buildTCPLayer
    dsimp only
    split <;> split <;> (try split) <;> rfl
  have hfixed : tcpFixLengths (buildSerializeOptions m config) (buildTCPLayer m connInfo config)
      = { buildTCPLayer m connInfo config with DataOffset := 10 } := by
    unfold tcpFixLengths
    simp [hfix, hopt, hpad, tcpOptionLength, md5Option]
  refine ⟨o, h, ?_, ?_, ?_, ?_, ?_⟩
  · rw [ht, hfixed]; simpa [md5Option] using hopt
  · rw [hseg, hfixed]
    simp [tcpHeaderBytes, putUint16, putUint32, hopt, hpad, tcpOptionBytes, md5Option, hfix]
  · rw [ht, hfixed]
  · rw [hseg, hfixed]
    obtain ⟨h1, h2, h3, h4, h5, h6, h7, h8⟩ := buildTCPLayer_flags m connInfo config
    rw [dataOffsetOf_header]
    exact flagsAndOffset_pshack _ 10 rfl (by decide) h1 h2 h3 h4 h5 h6 h7 h8
  · rw [hseg, hfixed]
    simp [tcpHeaderBytes, putUint16, putUint32, hopt, hpad, tcpOptionBytes, md5Option]
    omega

/-- Without `OPT_WMD5` the header carries no option and the serialized DataOffset
is 5 (a 20-byte header). -/
theorem SendFakePacket_no_md5 (m : OptionBits) (env : RawSocketEnv)
    (connInfo : ConnectionInfo) (payload : List Nat) (config : Config) (count : Int)
    (hmd5 : config.Option &&& m.OPT_WMD5 = 0)
    (hv : validAddrs connInfo.IP = true) :
    ∃ o, SendFakePacket m env connInfo payload config count = some o
      ∧ o.tcpLayer.Options = []
      ∧ o.tcpLayer.DataOffset = 5
      ∧ dataOffsetOf (tcpSegmentOf o.connInfo.IP o.outgoingPacket) = 5
      ∧ (tcpSegmentOf o.connInfo.IP o.outgoingPacket).length = 20 + payload.length := by
  obtain ⟨o, csum, h, ht, -, hseg, -, -⟩ :=
    SendFakePacket_segment m env connInfo payload config count hv
  have hfix := buildSerializeOptions_FixLengths m config
  have hopt : (buildTCPLayer m connInfo config).Options = [] := by
    unfold buildTCPLayer
    dsimp only
    simp only [hmd5, bne_self_eq_false, Bool.false_eq_true, if_false]
    split
    · rfl
    · split <;> rfl
  have hpad : (buildTCPLayer m connInfo config).Padding = [] := by
    unfold buildTCPLayer
    dsimp only
    split <;> split <;> (try split) <;> rfl
  have hfixed : tcpFixLengths (buildSerializeOptions m config) (buildTCPLayer m connInfo config)
      = { buildTCPLayer m connInfo config with DataOffset := 5 } := by
    unfold tcpFixLengths
    simp [hfix, hopt, hpad, tcpOptionLength]
  refine ⟨o, h, ?_, ?_, ?_, ?_⟩
  · rw [ht, hfixed]; exact hopt
  · rw [ht, hfixed]
  · rw [hseg, hfixed]
    obtain ⟨h1, h2, h3, h4, h5, h6, h7, h8⟩ := buildTCPLayer_flags m connInfo config
    rw [dataOffsetOf_header]
    exact flagsAndOffset_pshack _ 5 rfl (by decide) h1 h2 h3 h4 h5 h6 h7 h8
  · rw [hseg, hfixed]
    simp [tcpHeaderBytes, putUint16, putUint32, hopt, hpad, tcpOptionBytes]
    omega

/-- C5, as stated, fails: with option mask 24 (`OPT_NACK` and `OPT_WACK` under the
sample bits) the header built for the IPv4 sample flow (Ack 1001, Window 512)
has acknowledgment number 0, not 1513. -/
theorem C5_counterexample :
    (⟨24, 0⟩ : Config).Option &&& sampleBits.OPT_WACK ≠ 0
      ∧ (SendFakePacket sampleBits quietEnv sampleConn4 [] ⟨24, 0⟩ 1).map
          (fun o => (o.tcpLayer.Ack, o.tcpLayer.ACK)) = some (0, false)
      ∧ (sampleConn4.TCP.Ack + sampleConn4.TCP.Window) % 2 ^ 32 = 1513 := by
  decide

/-- C5 (amended): for every ConnectionInfo C and every policy with `OPT_WACK`
set and `OPT_NACK` clear, whatever other option bits are set, the
acknowledgment number of the header built by `SendFakePacket` is
(C.TCP.Ack + C.TCP.Window) mod 2^32 and the ACK flag stays set; when `OPT_NACK`
is set the acknowledgment number is 0 and the ACK flag is cleared, whether or
not `OPT_WACK` is set.  Whenever the call returns, the header it went through
with carries that acknowledgment number and ACK flag, and for an IPv4 or IPv6
record with usable addresses the call does return. -/
theorem C5_wack_ack_number (m : OptionBits) (env : RawSocketEnv)
    (connInfo : ConnectionInfo) (payload : List Nat) (config : Config) (count : Int) :
    (config.Option &&& m.OPT_NACK = 0 → config.Option &&& m.OPT_WACK ≠ 0 →
        (buildTCPLayer m connInfo config).Ack
            = (connInfo.TCP.Ack + connInfo.TCP.Window) % 2 ^ 32
          ∧ (buildTCPLayer m connInfo config).ACK = true)
      ∧ (config.Option &&& m.OPT_NACK ≠ 0 →
          (buildTCPLayer m connInfo config).Ack = 0
            ∧ (buildTCPLayer m connInfo config).ACK = false)
      ∧ (∀ o, SendFakePacket m env connInfo payload config count = some o →
          o.tcpLayer.Ack = (buildTCPLayer m connInfo config).Ack
            ∧ o.tcpLayer.ACK = (buildTCPLayer m connInfo config).ACK)
      ∧ (validAddrs connInfo.IP = true →
          ∃ o, SendFakePacket m env connInfo payload config count = some o) := by
  refine ⟨?_, ?_, ?_, ?_⟩
  · intro hn hw
    unfold buildTCPLayer
    dsimp only
    simp only [hn, bne_self_eq_false, Bool.false_eq_true, if_false, bne_iff_ne, ne_eq, hw,
      not_false_eq_true, if_true]
    split <;> simp [newTCPLayer]
  · intro hn
    unfold buildTCPLayer
    dsimp only
    simp only [bne_iff_ne, ne_eq, hn, not_false_eq_true, if_true]
    exact ⟨trivial, trivial⟩
  · intro o h
    obtain ⟨h1, h2, -⟩ := SendFakePacket_returned_header m env connInfo payload config count o h
    exact ⟨h1, h2⟩
  · intro hv
    obtain ⟨o, -, h, -⟩ := SendFakePacket_segment m env connInfo payload config count hv
    exact ⟨o, h⟩

/-- C5 (amended) at concrete injections: the IPv4 sample flow (Ack 1001, Window
512) with option mask 20 (`OPT_WACK` and `OPT_WMD5`, `OPT_NACK` clear) and with
option mask 24 (`OPT_WACK` and `OPT_NACK`). -/
theorem C5_wack_ack_number_witness :
    ((buildTCPLayer sampleBits sampleConn4 ⟨20, 0⟩).Ack = (1001 + 512) % 2 ^ 32
        ∧ (buildTCPLayer sampleBits sampleConn4 ⟨20, 0⟩).ACK = true)
      ∧ ((buildTCPLayer sampleBits sampleConn4 ⟨24, 0⟩).Ack = 0
        ∧ (buildTCPLayer sampleBits sampleConn4 ⟨24, 0⟩).ACK = false)
      ∧ (∃ o, SendFakePacket sampleBits quietEnv sampleConn4 [1, 2, 3] ⟨20, 0⟩ 1 = some o
        ∧ o.tcpLayer.Ack = (buildTCPLayer sampleBits sampleConn4 ⟨20, 0⟩).Ack) := by
  have h20 := C5_wack_ack_number sampleBits quietEnv sampleConn4 [1, 2, 3] ⟨20, 0⟩ 1
  have h24 := C5_wack_ack_number sampleBits quietEnv sampleConn4 [1, 2, 3] ⟨24, 0⟩ 1
  obtain ⟨o, ho⟩ := h20.2.2.2 (by decide)
  exact ⟨h20.1 (by decide) (by decide), h24.2.1 (by decide), o, ho, (h20.2.2.1 o ho).1⟩

/-- The carry loop reaches its exit condition within `fuel` rounds whenever the
accumulator exceeds 0xffff by at most `fuel`. -/
theorem foldCarry_le (fuel csum : Nat) (h : csum ≤ fuel + 65535) :
    foldCarry fuel csum ≤ 65535 := by
  induction fuel generalizing csum with
  | zero => simpa [foldCarry] using h
  | succ n ih =>
    unfold foldCarry
    split
    · apply ih
      omega
    · omega

/-- The checksum `tcpipChecksum` returns is a 16-bit value and its carry loop has
run to completion. -/
theorem tcpipChecksum_le (data : List Nat) (csum : Nat) :
    tcpipChecksum data csum ≤ 65535 ∧ foldCarry (sumWords data csum) (sumWords data csum) ≤ 65535 := by
  refine ⟨?_, foldCarry_le _ _ (by omega)⟩
  unfold tcpipChecksum
  dsimp only
  omega

/-- A computed checksum is a 16-bit value. -/
theorem computeChecksum_le (ip : NetworkLayer) (data : List Nat) (c : Nat)
    (h : computeChecksum ip data = some c) : c ≤ 65535 := by
  unfold computeChecksum at h
  split at h
  · simp at h
  · simp only [Option.some.injEq] at h
    rw [← h]
    exact (tcpipChecksum_le _ _).1

/-- Zeroing the checksum field of a serialized segment gives the bytes the
checksum is computed over. -/
theorem zeroChecksum_header (opts : SerializeOptions) (t : TCP) (csum : Nat)
    (payload : List Nat) :
    (tcpHeaderBytes opts t csum ++ payload).take 16 ++ [0, 0]
        ++ (tcpHeaderBytes opts t csum ++ payload).drop 18
      = tcpHeaderBytes opts t 0 ++ payload := by
  simp [tcpHeaderBytes, putUint16, putUint32]

/-- Without `OPT_WCSUM` the checksum field of the serialized segment is the
correct TCP checksum of that segment. -/
theorem SendFakePacket_checksum_computed (m : OptionBits) (env : RawSocketEnv)
    (connInfo : ConnectionInfo) (payload : List Nat) (config : Config) (count : Int)
    (hw : config.Option &&& m.OPT_WCSUM = 0)
    (hv : validAddrs connInfo.IP = true) :
    ∃ o, SendFakePacket m env connInfo payload config count = some o
      ∧ correctTCPChecksum o.connInfo.IP (tcpSegmentOf o.connInfo.IP o.outgoingPacket)
          = some (checksumField (tcpSegmentOf o.connInfo.IP o.outgoingPacket)) := by
  have hcs : (buildSerializeOptions m config).ComputeChecksums = true := by
    simp [buildSerializeOptions, hw]
  obtain ⟨o, csum, h, -, -, hseg, -, hc⟩ :=
    SendFakePacket_segment m env connInfo payload config count hv
  refine ⟨o, h, ?_⟩
  have hle := computeChecksum_le _ _ _ (hc hcs)
  rw [hseg, correctTCPChecksum, zeroChecksum_header, checksumField_header, hc hcs]
  congr 1
  omega

/-! ### Front end -/

/-- On the DoT path (no policy hit, no UDP upstream) the bytes relayed are the
first `n` bytes of the backing array of the slice `TLSlookup` returned, `n`
being the length of the query, provided `n` does not exceed its capacity. -/
theorem DNSServerStep_DoT (env : DNSEnv) (datagram : List Nat) (recv : GoSlice)
    (hlie : env.lie (datagram.take (min datagram.length 512)) = none)
    (hrecv : env.TLSlookup (datagram.take (min datagram.length 512)) = some recv)
    (hcap : min datagram.length 512 ≤ recv.backing.length) :
    DNSServerStep env "" datagram
      = DNSAction.writeToUDP (recv.backing.take (min datagram.length 512)) := by
  unfold DNSServerStep
  simp [hlie, hrecv, GoSlice.sliceTo, hcap]

/-- C8 at the failing input: a 29-byte query forwarded over DoT and a 45-byte
upstream reply.  The bytes written to the client are the first 29 bytes of the
reply, not the reply; and for a 12-byte reply held in a 12-byte slice the slice
expression is out of range. -/
theorem C8_dot_reply_cut_to_query_length :
    DNSServerStep (dotEnv ⟨sampleReply, 45⟩) "" sampleQuery
        = DNSAction.writeToUDP (sampleReply.take 29)
      ∧ sampleReply.take 29 ≠ sampleReply
      ∧ DNSServerStep (dotEnv ⟨sampleReply.take 12, 12⟩) "" sampleQuery = DNSAction.panic := by
  decide

/-- The pieces `splitChars` returns are the only non-empty list of
separator-free pieces that joins back to the input. -/
theorem splitChars_unique (sep : Char) (cs : List Char) (pieces : List (List Char))
    (hne : pieces ≠ []) (hsep : ∀ p ∈ pieces, sep ∉ p)
    (hjoin : joinChars sep pieces = cs) : splitChars sep cs = pieces := by
  induction cs generalizing pieces with
  | nil =>
    match pieces, hne, hsep, hjoin with
    | [p], _, _, hjoin =>
      simp only [joinChars] at hjoin
      simp [splitChars, hjoin]
    | p :: q :: rest, _, _, hjoin =>
      simp [joinChars] at hjoin
  | cons c cs ih =>
    match pieces, hne, hsep, hjoin with
    | [p], _, hsep, hjoin =>
      simp only [joinChars] at hjoin
      subst hjoin
      have hp : sep ∉ c :: cs := hsep _ (List.mem_singleton.mpr rfl)
      have hc : c ≠ sep := fun h => hp (h ▸ List.mem_cons_self _ _)
      have hcs : sep ∉ cs := fun h => hp (List.mem_cons_of_mem _ h)
      have := ih [cs] (by simp) (by simpa using hcs) rfl
      simp [splitChars, hc, this]
    | [] :: q :: rest, _, hsep, hjoin =>
      simp only [joinChars, List.nil_append, List.cons.injEq] at hjoin
      obtain ⟨hc, hrest⟩ := hjoin
      subst hc
      have := ih (q :: rest) (by simp)
        (fun p hp => hsep p (List.mem_cons_of_mem _ hp)) hrest
      simp [splitChars, this]
    | (c' :: p') :: q :: rest, _, hsep, hjoin =>
      simp only [joinChars, List.cons_append, List.cons.injEq] at hjoin
      obtain ⟨hc, hrest⟩ := hjoin
      subst hc
      have hp : sep ∉ c' :: p' := hsep _ (List.mem_cons_self _ _)
      have hc : c' ≠ sep := fun h => hp (h ▸ List.mem_cons_self _ _)
      have hp' : sep ∉ p' := fun h => hp (List.mem_cons_of_mem _ h)
      have := ih (p' :: q :: rest) (by simp)
        (fun p hp => by
          rcases List.mem_cons.mp hp with h | h
          · exact h ▸ hp'
          · exact hsep p (List.mem_cons_of_mem _ h))
        (by simpa [joinChars] using hrest)
      simp [splitChars, hc, this]

/-- The entries `Split` returns are the comma list written in the string. -/
theorem Split_of_isCommaList (clients : String) (entries : List String)
    (h : isCommaList clients entries = true) : Split clients ',' = entries := by
  simp only [isCommaList, Bool.and_eq_true, Bool.not_eq_true', List.isEmpty_eq_false,
    List.all_eq_true, beq_iff_eq] at h
  obtain ⟨⟨hne, hsep⟩, hjoin⟩ := h
  have hu := splitChars_unique ',' clients.toList (entries.map String.toList)
    (by simpa using hne)
    (by
      intro p hp
      obtain ⟨e, he, rfl⟩ := List.mem_map.mp hp
      have := hsep e he
      simpa using this)
    hjoin
  unfold Split
  rw [hu, List.map_map]
  have : (String.mk ∘ String.toList) = id := by
    funext s
    rfl
  rw [this, List.map_id]

/-- C9, as stated, fails: under `-clients="127.0.0.5, 127.0.0.6"` the address
127.0.0.6 is one of the listed client IPs, yet the connection from the client at
127.0.0.6 (whose address prints as "127.0.0.6") is closed and the handler is not
invoked: the second entry is the text " 127.0.0.6", blank included. -/
theorem C9_counterexample :
    specListed "127.0.0.5, 127.0.0.6" [127, 0, 0, 6] = true
      ∧ ipv4String [127, 0, 0, 6] = "127.0.0.6"
      ∧ Split "127.0.0.5, 127.0.0.6" ',' = ["127.0.0.5", " 127.0.0.6"]
      ∧ ListenAndServe (buildAllowlist "127.0.0.5, 127.0.0.6")
          [Accepted.conn 0 (ipv4String [127, 0, 0, 6])] = [ServeAction.close 0] := by
  decide

/-- C9 (amended): let `entries` be the comma list written in `-clients` (no entry
contains a comma, and the entries joined with commas give the flag).  When
`-clients` is not empty, an accepted connection goes to the handler exactly
when the text of the client's IP, as `IP.String()` prints it, is identical to
one of the entries, and is closed without the handler being invoked otherwise.
When `-clients` is empty every accepted connection goes to the handler. -/
theorem C9_allowlist_text_match (clients : String) (entries : List String)
    (conns : List (Nat × String)) (hlist : isCommaList clients entries = true) :
    (clients ≠ "" →
        ListenAndServe (buildAllowlist clients) (conns.map fun c => Accepted.conn c.1 c.2)
          = conns.map fun c =>
              if c.2 ∈ entries then ServeAction.proxy c.1 else ServeAction.close c.1)
      ∧ ListenAndServe (buildAllowlist "") (conns.map fun c => Accepted.conn c.1 c.2)
          = conns.map fun c => ServeAction.proxy c.1 := by
  have hsplit := Split_of_isCommaList clients entries hlist
  constructor
  · intro hc
    have hb : buildAllowlist clients = some entries := by
      simp [buildAllowlist, hc, hsplit]
    rw [hb]
    induction conns with
    | nil => simp [ListenAndServe]
    | cons c rest ih =>
      simp only [List.map_cons, ListenAndServe, ih]
  · have hb : buildAllowlist "" = none := by decide
    rw [hb]
    induction conns with
    | nil => simp [ListenAndServe]
    | cons c rest ih =>
      simp only [List.map_cons, ListenAndServe, ih]

/-- C9 (amended) at a concrete run: `-clients=10.0.0.5,10.0.0.7` with clients at
10.0.0.6, 10.0.0.7 and 10.0.0.5; and the same clients with `-clients` empty. -/
theorem C9_allowlist_text_match_witness :
    ListenAndServe (buildAllowlist "10.0.0.5,10.0.0.7")
        [Accepted.conn 0 "10.0.0.6", Accepted.conn 1 "10.0.0.7", Accepted.conn 2 "10.0.0.5"]
      = [ServeAction.close 0, ServeAction.proxy 1, ServeAction.proxy 2]
    ∧ ListenAndServe (buildAllowlist "")
        [Accepted.conn 0 "10.0.0.6", Accepted.conn 1 "10.0.0.7", Accepted.conn 2 "10.0.0.5"]
      = [ServeAction.proxy 0, ServeAction.proxy 1, ServeAction.proxy 2] := by
  have h := C9_allowlist_text_match "10.0.0.5,10.0.0.7" ["10.0.0.5", "10.0.0.7"]
    [(0, "10.0.0.6"), (1, "10.0.0.7"), (2, "10.0.0.5")] (by decide)
  exact ⟨(h.1 (by decide)).trans (by decide), h.2⟩

/-- The allowlist scenario of the specification: `-clients=10.0.0.5`; the client
at 10.0.0.6 is closed, the client at 10.0.0.5 is handled. -/
theorem allowlist_scenario :
    ListenAndServe (buildAllowlist "10.0.0.5")
        [Accepted.conn 0 "10.0.0.6", Accepted.conn 1 "10.0.0.5"]
      = [ServeAction.close 0, ServeAction.proxy 1] := by
  decide

/-- C10 at the failing inputs.  With `-proxy` and no `-socks`, `main` installs the
system proxy on both devices and, on the interrupt, prints the signal and ends
without any `SetProxy(dev, proxy, false)`.  With `-socks` and no `-proxy`, it
installs nothing and still calls `SetProxy(dev, "", false)` on both devices. -/
theorem C10_exit_undo_guarded_by_socks :
    main calmEnv proxyOnlyFlags
        = [Event.Init, Event.LoadConfig "default.conf",
            Event.ConnectionMonitor ["eth0", "eth1"] false,
            Event.SetProxy "eth0" "http://127.0.0.1:8080" true,
            Event.SetProxy "eth1" "http://127.0.0.1:8080" true,
            Event.signalReceived "interrupt", Event.Println "" "interrupt"]
      ∧ main calmEnv socksOnlyFlags
        = [Event.Init, Event.LoadConfig "default.conf",
            Event.ConnectionMonitor ["eth0", "eth1"] false,
            Event.Println "Socks:" "127.0.0.1:1080",
            Event.goListenAndServe "127.0.0.1:1080" "SocksProxy",
            Event.signalReceived "interrupt", Event.Println "" "interrupt",
            Event.SetProxy "eth0" "" false, Event.SetProxy "eth1" "" false] := by
  decide

end PhantomSocks
